import Mathlib

/-!
# Verification of the padme-core DMG emulator against its specification

This file gives a shallow embedding, in Lean 4, of the parts of the
padme-core emulator that the specification claims C1..C10 talk about, and
settles each claim against the embedded code.

Conventions of the embedding:
* machine integers (`u8`, `u16`, `u32`) are modelled as `Nat` with an
  explicit `% 256` / `% 65536` wherever the Rust code can wrap
  (`wrapping_add`, `wrapping_sub`, `as u8` casts);
* byte arrays owned by a component (external RAM, VRAM, OAM, wave RAM)
  are modelled as total functions `Nat → Nat`; a cartridge image
  (`storage: T` where `T: Deref<Target=[u8]>`) is a length together with
  an index function;
* Rust code that panics (`unreachable!`, `unimplemented!`) is modelled
  with an `Option` / a dedicated result constructor, never by inventing a
  value;
* `slice::sort_unstable` is modelled relationally: its contract promises
  a sorted permutation of the input and nothing about the order of equal
  elements, so the embedding admits every sorted permutation.

Definitions keep the names of the Rust items they embed (module name as a
Lean namespace, snake_case field names kept).
-/

/-! ## interrupt.rs -/

/-- `InterruptFlag` discriminant values from `interrupt.rs`. -/
def InterruptFlag.Vblank : Nat := 0x01
def InterruptFlag.Lcdc : Nat := 0x02
def InterruptFlag.TimerOverflow : Nat := 0x04
def InterruptFlag.Serial : Nat := 0x08
def InterruptFlag.Joypad : Nat := 0x10

/-- `InterruptHandler` state: the IF and IE registers. -/
structure InterruptHandler where
  reg_if : Nat
  reg_ie : Nat
  deriving DecidableEq

/-- `InterruptHandler::new` (DMG defaults IF=0xE1, IE=0x00). -/
def InterruptHandler.new : InterruptHandler := ⟨0xE1, 0x00⟩

/-- `InterruptHandler::request`: `reg_if |= flag`. -/
def InterruptHandler.request (ir : InterruptHandler) (flag : Nat) : InterruptHandler :=
  { ir with reg_if := ir.reg_if ||| flag }

/-- `InterruptHandler::clear`: `reg_if &= !flag` (u8 complement). -/
def InterruptHandler.clear (ir : InterruptHandler) (flag : Nat) : InterruptHandler :=
  { ir with reg_if := ir.reg_if &&& (255 - flag % 256) }

/-! ## timer.rs -/

/-- `CLOCK_SPEED` from cpu.rs. -/
def CLOCK_SPEED : Nat := 4194304

/-- `DIV_PERIOD = CLOCK_SPEED / 16384 = 256`. -/
def DIV_PERIOD : Nat := CLOCK_SPEED / 16384

/-- `Timer` state, all registers and internal counters. -/
structure Timer where
  reg_div : Nat
  reg_tima : Nat
  reg_tma : Nat
  reg_tac : Nat
  div_cycles : Nat
  tima_cycles : Nat
  tima_period : Nat
  deriving DecidableEq

/-- `Timer::period_from_tac`: input-clock selection from TAC bits 1..0. -/
def Timer.period_from_tac (tac : Nat) : Nat :=
  match tac &&& 0b11 with
  | 0 => 1024
  | 1 => 16
  | 2 => 64
  | _ => 256

/-- `Timer::new` (DMG defaults DIV=0x18, TIMA=0, TMA=0, TAC=0xF8). -/
def Timer.new : Timer :=
  { reg_div := 0x18, reg_tima := 0x00, reg_tma := 0x00, reg_tac := 0xF8
    div_cycles := 0, tima_cycles := 0
    tima_period := Timer.period_from_tac 0xF8 }

/-- `Timer::step`, one T-cycle.  Mirrors timer.rs lines 78..106:
DIV bookkeeping, then the TAC-period-change check, then, when the timer
is enabled and the cycle budget is reached, `reg_tima` is incremented
(wrapping) and — as written in the source — the reload `reg_tima := reg_tma`
plus the interrupt request fire when the *post-increment* value equals
`0xFF`. -/
def Timer.step (t0 : Timer) (ir : InterruptHandler) : Timer × InterruptHandler :=
  let t1 := { t0 with div_cycles := (t0.div_cycles + 1) % 65536 }
  let t2 := if DIV_PERIOD < t1.div_cycles then
      { t1 with reg_div := (t1.reg_div + 1) % 256, div_cycles := 0 }
    else t1
  let new_tima_period := Timer.period_from_tac t2.reg_tac
  if new_tima_period ≠ t2.tima_period then
    ({ t2 with tima_period := new_tima_period, tima_cycles := 0 }, ir)
  else if t2.reg_tac &&& 0b100 = 0b100 then
    let t3 := { t2 with tima_cycles := (t2.tima_cycles + 1) % 65536 }
    if t3.tima_period ≤ t3.tima_cycles then
      let t4 := { t3 with reg_tima := (t3.reg_tima + 1) % 256, tima_cycles := 0 }
      if t4.reg_tima = 0xFF then
        ({ t4 with reg_tima := t4.reg_tma }, ir.request InterruptFlag.TimerOverflow)
      else (t4, ir)
    else (t3, ir)
  else (t2, ir)

/-! ### C2 -/

/-- C2 evidence: evaluating the embedded `Timer::step` at two concrete
states (enabled timer, period 16, cycle budget reached) shows that the
reload `TIMA := TMA` and the interrupt request fire on the increment
`0xFE → 0xFF` — where no `0xFF → 0x00` wrap happened — and do *not* fire
on the wrap `0xFF → 0x00`, contradicting the claim that they happen
exactly on that wrap. -/
theorem timer_step_reload_misses_wrap :
    (let tFE : Timer := { reg_div := 0x18, reg_tima := 0xFE, reg_tma := 0x42,
                          reg_tac := 0x05, div_cycles := 0, tima_cycles := 15,
                          tima_period := 16 }
     let r := Timer.step tFE InterruptHandler.new
     r.1.reg_tima = 0x42 ∧ r.2.reg_if &&& InterruptFlag.TimerOverflow = 0x04) ∧
    (let tFF : Timer := { reg_div := 0x18, reg_tima := 0xFF, reg_tma := 0x42,
                          reg_tac := 0x05, div_cycles := 0, tima_cycles := 15,
                          tima_period := 16 }
     let r := Timer.step tFF InterruptHandler.new
     r.1.reg_tima = 0x00 ∧ r.2.reg_if &&& InterruptFlag.TimerOverflow = 0x00) := by
  decide

/-! ## rom/mbc.rs — MBC1 -/

/-- `Mbc1` state.  External RAM is a byte map indexed by
`ram_bank * 0x2000 + offset` exactly as the flat `eram` array is indexed
in the source. -/
structure Mbc1 where
  eram : Nat → Nat
  ram_enabled : Bool
  rom_bank : Nat
  ram_bank : Nat
  ram_bank_mode : Bool

/-- `Mbc1::new` (rom_bank defaults to 1). -/
def Mbc1.new : Mbc1 :=
  { eram := fun _ => 0, ram_enabled := false, rom_bank := 0x01,
    ram_bank := 0x00, ram_bank_mode := false }

/-- `Mbc1::set_rom_bank`: forbidden values 0x00/0x20/0x40/0x60 are bumped
by one. -/
def Mbc1.set_rom_bank (m : Mbc1) (bank : Nat) : Mbc1 :=
  { m with rom_bank :=
      if bank = 0x00 ∨ bank = 0x20 ∨ bank = 0x40 ∨ bank = 0x60 then bank + 1 else bank }

/-- `Mbc1::write` (rom/mbc.rs lines 115..141).  Addresses ≥ 0x8000 that
are not in the external-RAM window fall to `io_error_write` (the write is
dropped). -/
def Mbc1.write (m : Mbc1) (addr v : Nat) : Mbc1 :=
  if addr ≤ 0x1FFF then
    { m with ram_enabled := (v &&& 0xA) = 0xA }
  else if addr ≤ 0x3FFF then
    m.set_rom_bank ((m.rom_bank &&& 0xE0) ||| (v &&& 0x1F))
  else if addr ≤ 0x5FFF then
    let bank := v &&& 0x03
    if m.ram_bank_mode then { m with ram_bank := bank }
    else m.set_rom_bank ((bank <<< 5) ||| m.rom_bank)
  else if addr ≤ 0x7FFF then
    { m with ram_bank_mode := (v &&& 0x01) = 0x01 }
  else if 0xA000 ≤ addr ∧ addr ≤ 0xBFFF then
    if m.ram_enabled then
      { m with eram := fun i =>
          if i = 0x2000 * m.ram_bank + (addr - 0xA000) then v else m.eram i }
    else m
  else m

/-- `Mbc1::read` (rom/mbc.rs lines 94..113); `storage` is the cartridge
image's index function.  The source's `unreachable!` arm is `none`. -/
def Mbc1.read (m : Mbc1) (storage : Nat → Nat) (addr : Nat) : Option Nat :=
  if addr ≤ 0x3FFF then some (storage addr)
  else if addr ≤ 0x7FFF then
    some (storage (0x4000 * m.rom_bank + (addr - 0x4000)))
  else if 0xA000 ≤ addr ∧ addr ≤ 0xBFFF then
    some (if m.ram_enabled then m.eram (0x2000 * m.ram_bank + (addr - 0xA000)) else 0xFF)
  else none

/-! ### C3 -/

/-- C3 counterexample: writing `w = 0x20` to the ROM-bank-select region on
a fresh MBC1 yields `rom_bank = 0x01` (the value is masked to its low five
bits and the assembled bank 0 is bumped to 1), and the switchable window
then reads bank 1, not bank `w + 1 = 0x21`. -/
theorem mbc1_bank_select_masks_written_value :
    (Mbc1.write Mbc1.new 0x2000 0x20).rom_bank = 0x01 ∧
    Mbc1.read (Mbc1.write Mbc1.new 0x2000 0x20) (fun i => i / 0x4000) 0x4000 =
      some 0x01 ∧
    ¬ (0x01 : Nat) = 0x20 + 1 := by
  refine ⟨rfl, rfl, by decide⟩

/-- C3 (amended): a write of `w` to 0x2000–0x3FFF assembles
`a = (rom_bank & 0xE0) | (w & 0x1F)` and stores `a + 1` when
`a ∈ {0x00, 0x20, 0x40, 0x60}` (else `a`); subsequent reads of the
switchable window use `image[rom_bank * 0x4000 + (addr − 0x4000)]`.  In
particular, with the upper bank bits clear, a write of any
`w ∈ {0x00, 0x20, 0x40, 0x60}` gives effective bank `(w & 0x1F) + 1 = 1`,
not `w + 1`. -/
theorem mbc1_rom_bank_select (m : Mbc1) (storage : Nat → Nat) (addr w raddr : Nat)
    (h1 : 0x2000 ≤ addr) (h2 : addr ≤ 0x3FFF)
    (h3 : 0x4000 ≤ raddr) (h4 : raddr ≤ 0x7FFF) :
    (Mbc1.write m addr w).rom_bank =
      (if (m.rom_bank &&& 0xE0) ||| (w &&& 0x1F) = 0x00 ∨
          (m.rom_bank &&& 0xE0) ||| (w &&& 0x1F) = 0x20 ∨
          (m.rom_bank &&& 0xE0) ||| (w &&& 0x1F) = 0x40 ∨
          (m.rom_bank &&& 0xE0) ||| (w &&& 0x1F) = 0x60
       then ((m.rom_bank &&& 0xE0) ||| (w &&& 0x1F)) + 1
       else (m.rom_bank &&& 0xE0) ||| (w &&& 0x1F)) ∧
    Mbc1.read (Mbc1.write m addr w) storage raddr =
      some (storage (0x4000 * (Mbc1.write m addr w).rom_bank + (raddr - 0x4000))) ∧
    (m.rom_bank &&& 0xE0 = 0 → w &&& 0x1F = 0 → (Mbc1.write m addr w).rom_bank = 1) := by
  have hw : Mbc1.write m addr w =
      m.set_rom_bank ((m.rom_bank &&& 0xE0) ||| (w &&& 0x1F)) := by
    unfold Mbc1.write
    rw [if_neg (by omega), if_pos (by omega)]
  refine ⟨?_, ?_, ?_⟩
  · rw [hw]
    unfold Mbc1.set_rom_bank
    split <;> rfl
  · unfold Mbc1.read
    rw [if_neg (by omega), if_pos (by omega)]
  · intro hu hl
    rw [hw, hu, hl]
    rfl

/-- C3 witness: the amended theorem applied at the fresh MBC1,
`w = 0x20`, write address 0x2000, read address 0x4000. -/
theorem mbc1_rom_bank_select_witness :
    (Mbc1.write Mbc1.new 0x2000 0x20).rom_bank =
      (if (Mbc1.new.rom_bank &&& 0xE0) ||| (0x20 &&& 0x1F) = 0x00 ∨
          (Mbc1.new.rom_bank &&& 0xE0) ||| (0x20 &&& 0x1F) = 0x20 ∨
          (Mbc1.new.rom_bank &&& 0xE0) ||| (0x20 &&& 0x1F) = 0x40 ∨
          (Mbc1.new.rom_bank &&& 0xE0) ||| (0x20 &&& 0x1F) = 0x60
       then ((Mbc1.new.rom_bank &&& 0xE0) ||| (0x20 &&& 0x1F)) + 1
       else (Mbc1.new.rom_bank &&& 0xE0) ||| (0x20 &&& 0x1F)) ∧
    Mbc1.read (Mbc1.write Mbc1.new 0x2000 0x20) (fun i => i / 0x4000) 0x4000 =
      some ((fun i => i / 0x4000)
        (0x4000 * (Mbc1.write Mbc1.new 0x2000 0x20).rom_bank + (0x4000 - 0x4000))) ∧
    (Mbc1.new.rom_bank &&& 0xE0 = 0 → (0x20 : Nat) &&& 0x1F = 0 →
      (Mbc1.write Mbc1.new 0x2000 0x20).rom_bank = 1) :=
  mbc1_rom_bank_select Mbc1.new (fun i => i / 0x4000) 0x2000 0x20 0x4000
    (by decide) (by decide) (by decide) (by decide)

/-! ## rom/mbc.rs — MBC3 (state only; C6 needs its construction) -/

/-- `Mbc3` state. -/
structure Mbc3 where
  ram_timer_enabled : Bool
  rom_bank : Nat
  ram_bank : Nat
  reg_rtc : Nat
  rtc_mode : Bool
  eram : Nat → Nat

/-- `Mbc3::new`. -/
def Mbc3.new : Mbc3 :=
  { ram_timer_enabled := false, rom_bank := 0x01, ram_bank := 0x00,
    reg_rtc := 0, rtc_mode := false, eram := fun _ => 0 }

/-- The `Mbc` enum of rom/mbc.rs. -/
inductive Mbc where
  | mbc0 : Mbc
  | mbc1 : Mbc1 → Mbc
  | mbc3 : Mbc3 → Mbc

/-! ## rom/rom.rs -/

/-- A cartridge image: the `storage: T where T: Deref<Target=[u8]>` field,
modelled as a byte count plus an index function. -/
structure Storage where
  len : Nat
  byte : Nat → Nat

/-- `CartridgeType` from rom/mod.rs, as matched by `Rom::cartridge_type`. -/
inductive CartridgeType where
  | RomOnly | Mbc1 | Mbc1Ram | Mbc1RamBattery
  | Mbc2 | Mbc2Battery
  | RomRam | RomRamBattery
  | Mmm01 | Mmm01Ram | Mmm01RamBattery
  | Mbc3TimerBattery | Mbc3TimerRamBattery | Mbc3 | Mbc3Ram | Mbc3RamBattery
  | Mbc5 | Mbc5Ram | Mbc5RamBattery | Mbc5Rumble | Mbc5RumbleRam | Mbc5RumbleRamBattery
  | Mbc6 | Mbc7SensorRumbleRamBattery
  | PocketCamera | BandaiTama5 | HuC3 | HuC1RamBattery
  | Unknown
  deriving DecidableEq

/-- `Rom::cartridge_type`: decode header byte 0x0147. -/
def Rom.cartridge_type (s : Storage) : CartridgeType :=
  match s.byte 0x0147 with
  | 0x00 => .RomOnly
  | 0x01 => .Mbc1
  | 0x02 => .Mbc1Ram
  | 0x03 => .Mbc1RamBattery
  | 0x05 => .Mbc2
  | 0x06 => .Mbc2Battery
  | 0x08 => .RomRam
  | 0x09 => .RomRamBattery
  | 0x0B => .Mmm01
  | 0x0C => .Mmm01Ram
  | 0x0D => .Mmm01RamBattery
  | 0x0F => .Mbc3TimerBattery
  | 0x10 => .Mbc3TimerRamBattery
  | 0x11 => .Mbc3
  | 0x12 => .Mbc3Ram
  | 0x13 => .Mbc3RamBattery
  | 0x19 => .Mbc5
  | 0x1A => .Mbc5Ram
  | 0x1B => .Mbc5RamBattery
  | 0x1C => .Mbc5Rumble
  | 0x1D => .Mbc5RumbleRam
  | 0x1E => .Mbc5RumbleRamBattery
  | 0x20 => .Mbc6
  | 0x22 => .Mbc7SensorRumbleRamBattery
  | 0xFC => .PocketCamera
  | 0xFD => .BandaiTama5
  | 0xFE => .HuC3
  | 0xFF => .HuC1RamBattery
  | _ => .Unknown

/-- `ROM_REGION_SIZE` (32 KiB). -/
def ROM_REGION_SIZE : Nat := 0x8000

/-- The loaded `Rom` value: image plus installed controller. -/
structure Rom where
  storage : Storage
  mbc_ctrl : Mbc

/-- Outcome of `Rom::load`: the error enum of error.rs has the single
variant `InvalidRomSize(usize)`; the `unimplemented!()` arm of `load`
panics and is a separate outcome, not an error return. -/
inductive LoadResult where
  | ok : Rom → LoadResult
  | invalidRomSize : Nat → LoadResult
  | panicUnimplemented : LoadResult

/-- `true` exactly on `LoadResult.ok`. -/
def LoadResult.isOk : LoadResult → Bool
  | .ok _ => true
  | _ => false

/-- `true` exactly on `LoadResult.invalidRomSize`. -/
def LoadResult.isInvalidRomSize : LoadResult → Bool
  | .invalidRomSize _ => true
  | _ => false

/-- `Rom::load` (rom/rom.rs lines 35..62): size check, then the
controller is selected from the cartridge type; the source's `_ =>
unimplemented!()` arm panics. -/
def Rom.load (s : Storage) : LoadResult :=
  if s.len < ROM_REGION_SIZE then .invalidRomSize s.len
  else
    match Rom.cartridge_type s with
    | .RomOnly => .ok ⟨s, .mbc0⟩
    | .Mbc1 | .Mbc1Ram | .Mbc1RamBattery => .ok ⟨s, .mbc1 Mbc1.new⟩
    | .Mbc3 | .Mbc3Ram | .Mbc3RamBattery
    | .Mbc3TimerBattery | .Mbc3TimerRamBattery => .ok ⟨s, .mbc3 Mbc3.new⟩
    | _ => .panicUnimplemented

/-- The cartridge types `Rom::load` installs a controller for (the match
arms of `load` that do not hit `unimplemented!`). -/
def CartridgeType.loadSupported : CartridgeType → Bool
  | .RomOnly | .Mbc1 | .Mbc1Ram | .Mbc1RamBattery
  | .Mbc3 | .Mbc3Ram | .Mbc3RamBattery
  | .Mbc3TimerBattery | .Mbc3TimerRamBattery => true
  | _ => false

/-! ### C6 -/

/-- C6 counterexample: a 32-KiB image whose cartridge-type byte is 0x19
(MBC5) makes `Rom::load` hit `unimplemented!()` — a panic — instead of
returning the error value the claim promises as the sole failure mode. -/
theorem rom_load_panics_on_unsupported_type :
    Rom.load ⟨0x8000, fun i => if i = 0x0147 then 0x19 else 0⟩ =
      LoadResult.panicUnimplemented := by
  rfl

/-- C6 (amended): `Rom::load` returns the `InvalidRomSize` error value
exactly when the image is shorter than 32 KiB; with sufficient length it
returns the loaded cartridge for the supported types (ROM-only, MBC1
family, MBC3 family) and panics via `unimplemented!` — rather than
returning an error — for every other cartridge-type code. -/
theorem rom_load_characterization (s : Storage) :
    ((Rom.load s).isInvalidRomSize = true ↔ s.len < ROM_REGION_SIZE) ∧
    (ROM_REGION_SIZE ≤ s.len →
      ((Rom.load s).isOk = true ↔ (Rom.cartridge_type s).loadSupported = true)) ∧
    (ROM_REGION_SIZE ≤ s.len → (Rom.cartridge_type s).loadSupported = false →
      Rom.load s = LoadResult.panicUnimplemented) := by
  refine ⟨?_, ?_, ?_⟩
  · unfold Rom.load
    split <;> rename_i hlt
    · simp [LoadResult.isInvalidRomSize, hlt]
    · cases h : Rom.cartridge_type s <;>
        simp [LoadResult.isInvalidRomSize, hlt]
  · intro hge
    unfold Rom.load
    rw [if_neg (by omega)]
    cases h : Rom.cartridge_type s <;>
      simp [LoadResult.isOk, CartridgeType.loadSupported]
  · intro hge hunsup
    unfold Rom.load
    rw [if_neg (by omega)]
    cases h : Rom.cartridge_type s <;>
      simp_all [CartridgeType.loadSupported]

/-- C6 witness: the amended characterization applied to a 32-KiB MBC1
image (type byte 0x01) and, via the iff, to the short image case. -/
theorem rom_load_characterization_witness :
    ((Rom.load ⟨0x8000, fun i => if i = 0x0147 then 0x01 else 0⟩).isOk = true ↔
      (Rom.cartridge_type ⟨0x8000, fun i => if i = 0x0147 then 0x01 else 0⟩).loadSupported
        = true) ∧
    ((Rom.load ⟨0x10, fun _ => 0⟩).isInvalidRomSize = true ↔ (0x10 : Nat) < ROM_REGION_SIZE) :=
  ⟨(rom_load_characterization ⟨0x8000, fun i => if i = 0x0147 then 0x01 else 0⟩).2.1
      (by decide),
   (rom_load_characterization ⟨0x10, fun _ => 0⟩).1⟩

/-! ### C8 — header checksum -/

/-- u8 `wrapping_sub` on `Nat` values below 256. -/
def wrapping_sub8 (a b : Nat) : Nat := (a + 256 - b % 256) % 256

/-- `Rom::header`: the 25 bytes `storage[0x0134 .. 0x014C]` (the slice
`0x0134..HEADER_HEADER_CHECKSUM` is exclusive of 0x014D). -/
def Rom.header (s : Storage) : List Nat :=
  (List.range 25).map (fun i => s.byte (0x0134 + i))

/-- `Rom::verify_header_checksum` (rom/rom.rs lines 167..175):
`x = x.wrapping_sub(byte).wrapping_sub(1)` over the header, compared with
`storage[0x014D]`. -/
def Rom.verify_header_checksum (s : Storage) : Bool :=
  (Rom.header s).foldl (fun x byte => wrapping_sub8 (wrapping_sub8 x byte) 1) 0
    == s.byte 0x014D

theorem wrapping_sub8_cast (a b : Nat) :
    ((wrapping_sub8 a b : Nat) : ZMod 256) = (a : ZMod 256) - (b : ZMod 256) := by
  unfold wrapping_sub8
  rw [ZMod.natCast_mod, Nat.cast_sub (by omega : b % 256 ≤ a + 256)]
  push_cast [ZMod.natCast_mod]
  have h256 : (256 : ZMod 256) = 0 := by decide
  rw [h256]
  ring

theorem checksum_foldl_cast (l : List Nat) (x : Nat) :
    ((l.foldl (fun a b => wrapping_sub8 (wrapping_sub8 a b) 1) x : Nat) : ZMod 256)
      = (x : ZMod 256) + (l.map (fun b : Nat => -(b : ZMod 256) - 1)).sum := by
  induction l generalizing x with
  | nil => simp
  | cons b t ih =>
    rw [List.foldl_cons, ih, List.map_cons, List.sum_cons]
    rw [wrapping_sub8_cast, wrapping_sub8_cast]
    push_cast
    ring

theorem checksum_foldl_lt (l : List Nat) (x : Nat) (hx : x < 256) :
    l.foldl (fun a b => wrapping_sub8 (wrapping_sub8 a b) 1) x < 256 := by
  induction l generalizing x with
  | nil => exact hx
  | cons b t ih =>
    rw [List.foldl_cons]
    exact ih _ (Nat.mod_lt _ (by norm_num))

/-- C8: `verify_header_checksum` returns true exactly when the
subtractive sum `Σ (−bᵢ − 1)` over the header bytes, taken mod 256,
equals the checksum byte stored at 0x014D.  The hypothesis `hlen` records
that the image is long enough for the header slice not to panic (always
true for a loaded cartridge); `hb` records that storage holds bytes. -/
theorem verify_header_checksum_iff (s : Storage)
    (hlen : 0x014E ≤ s.len) (hb : ∀ i, s.byte i < 256) :
    Rom.verify_header_checksum s = true ↔
      ((Rom.header s).map (fun b : Nat => -(b : ZMod 256) - 1)).sum
        = (s.byte 0x014D : ZMod 256) := by
  have hfold := checksum_foldl_cast (Rom.header s) 0
  have hlt := checksum_foldl_lt (Rom.header s) 0 (by norm_num)
  have hinj : ∀ a b : Nat, a < 256 → b < 256 →
      (((a : Nat) : ZMod 256) = ((b : Nat) : ZMod 256) ↔ a = b) := by
    intro a b ha hbb
    constructor
    · intro h
      have := congrArg ZMod.val h
      rwa [ZMod.val_natCast_of_lt ha, ZMod.val_natCast_of_lt hbb] at this
    · intro h
      rw [h]
  unfold Rom.verify_header_checksum
  rw [beq_iff_eq, ← hinj _ _ hlt (hb 0x014D), hfold]
  simp

/-- C8 witness: the characterization applied to a concrete all-zero
32-KiB image (whose stored checksum byte 0 does not match the computed
0xE7, so both sides of the iff are false). -/
theorem verify_header_checksum_iff_witness :
    Rom.verify_header_checksum ⟨0x8000, fun _ => 0⟩ = true ↔
      ((Rom.header ⟨0x8000, fun _ => 0⟩).map (fun b : Nat => -(b : ZMod 256) - 1)).sum
        = ((⟨0x8000, fun _ => 0⟩ : Storage).byte 0x014D : ZMod 256) :=
  verify_header_checksum_iff ⟨0x8000, fun _ => 0⟩ (by decide)
    (fun _ => by show (0 : Nat) < 256; norm_num)

/-! ## ppu/ppu.rs — registers, DMA, and the `MemoryRegion` write -/

/-- `Ppu` state: VRAM/OAM byte maps, the LCD registers, the dot counter
and the DMA engine.  The rendering pipeline sub-state (`Pipeline`) is not
touched by any function embedded here (`Ppu::write` / the DMA engine), so
it is not carried in this record; the sprite-scan machinery it owns is
embedded separately below for C5. -/
structure Ppu where
  vram : Nat → Nat
  oam : Nat → Nat
  reg_lcdc : Nat
  reg_stat : Nat
  reg_scy : Nat
  reg_scx : Nat
  reg_ly : Nat
  reg_lyc : Nat
  reg_wy : Nat
  reg_wx : Nat
  reg_dma : Nat
  reg_bgp : Nat
  reg_obp0 : Nat
  reg_obp1 : Nat
  hdots : Nat
  dma_active : Bool
  dma_idx : Nat

/-- `Ppu::new` (DMG register defaults). -/
def Ppu.new : Ppu :=
  { vram := fun _ => 0, oam := fun _ => 0,
    reg_lcdc := 0x91, reg_stat := 0x81, reg_scy := 0x00, reg_scx := 0x00,
    reg_ly := 0x91, reg_lyc := 0x00, reg_wy := 0x00, reg_wx := 0x00,
    reg_dma := 0xFF, reg_bgp := 0xFC, reg_obp0 := 0xFF, reg_obp1 := 0xFF,
    hdots := 0, dma_active := false, dma_idx := 0 }

/-- `Ppu::dma_start`: arm a 160-byte OAM copy from `source << 8`. -/
def Ppu.dma_start (p : Ppu) (source : Nat) : Ppu :=
  { p with reg_dma := source, dma_active := true, dma_idx := 0 }

/-- `Ppu::dma_source`: `reg_dma * 0x100 + dma_idx`. -/
def Ppu.dma_source (p : Ppu) : Nat := p.reg_dma * 0x100 + p.dma_idx

/-- `Ppu::dma_write`: store one byte at `oam[dma_idx]`, advance the
index, stop after 160 bytes. -/
def Ppu.dma_write (p : Ppu) (byte : Nat) : Ppu :=
  if 160 ≤ p.dma_idx + 1 then
    { p with oam := fun i => if i = p.dma_idx then byte else p.oam i,
             dma_idx := p.dma_idx + 1, dma_active := false }
  else
    { p with oam := fun i => if i = p.dma_idx then byte else p.oam i,
             dma_idx := p.dma_idx + 1 }

/-- `Bus::dma_tick` (bus.rs lines 105..112) with the bus read routing
abstracted as the function `read`: if DMA is active, copy exactly one
byte from the current DMA source into OAM. -/
def Bus.dma_tick (read : Nat → Nat) (p : Ppu) : Ppu :=
  if p.dma_active then p.dma_write (read p.dma_source) else p

/-- `Ppu::write` (the `MemoryRegion` impl, ppu/ppu.rs lines 707..730).
The source's `unreachable!` arm is `none`.  STAT line: bits 2,1,0 are
read-only, `reg_stat = (value & 0xF8) | (reg_stat & 0x07)`. -/
def Ppu.write (p : Ppu) (addr v : Nat) : Option Ppu :=
  if 0x8000 ≤ addr ∧ addr ≤ 0x9FFF then
    some { p with vram := fun i => if i = addr - 0x8000 then v else p.vram i }
  else if 0xFE00 ≤ addr ∧ addr ≤ 0xFE9F then
    some { p with oam := fun i => if i = addr - 0xFE00 then v else p.oam i }
  else if addr = 0xFF40 then some { p with reg_lcdc := v }
  else if addr = 0xFF41 then
    some { p with reg_stat := (v &&& 0xF8) ||| (p.reg_stat &&& 0x07) }
  else if addr = 0xFF42 then some { p with reg_scy := v }
  else if addr = 0xFF43 then some { p with reg_scx := v }
  else if addr = 0xFF45 then some { p with reg_lyc := v }
  else if addr = 0xFF4A then some { p with reg_wy := v }
  else if addr = 0xFF4B then some { p with reg_wx := v }
  else if addr = 0xFF46 then some (p.dma_start v)
  else if addr = 0xFF47 then some { p with reg_bgp := v }
  else if addr = 0xFF48 then some { p with reg_obp0 := v }
  else if addr = 0xFF49 then some { p with reg_obp1 := v }
  else none

/-! ### C10 -/

/-- C10: a write of any value to STAT (0xFF41; the bus routes the
0xFF40–0xFF4B window to `Ppu::write`) succeeds, keeps bits 0–2 of STAT
(mode bits and LYC coincidence) at their previous values, sets bits 3–7
from the written value, and leaves LCDC, LY and LYC untouched. -/
theorem stat_write_touches_only_high_bits (p : Ppu) (v : Nat) :
    ∃ p', Ppu.write p 0xFF41 v = some p' ∧
      (∀ i, i < 3 → p'.reg_stat.testBit i = p.reg_stat.testBit i) ∧
      (∀ i, 3 ≤ i → i < 8 → p'.reg_stat.testBit i = v.testBit i) ∧
      p'.reg_lcdc = p.reg_lcdc ∧ p'.reg_ly = p.reg_ly ∧ p'.reg_lyc = p.reg_lyc := by
  refine ⟨{ p with reg_stat := (v &&& 0xF8) ||| (p.reg_stat &&& 0x07) }, ?_, ?_, ?_,
    rfl, rfl, rfl⟩
  · unfold Ppu.write
    norm_num
  · intro i hi
    interval_cases i <;>
      simp [Nat.testBit_lor, Nat.testBit_land,
        (by decide : Nat.testBit 248 0 = false), (by decide : Nat.testBit 7 0 = true),
        (by decide : Nat.testBit 248 1 = false), (by decide : Nat.testBit 7 1 = true),
        (by decide : Nat.testBit 248 2 = false), (by decide : Nat.testBit 7 2 = true)]
  · intro i h3 h8
    interval_cases i <;>
      simp [Nat.testBit_lor, Nat.testBit_land,
        (by decide : Nat.testBit 248 3 = true), (by decide : Nat.testBit 7 3 = false),
        (by decide : Nat.testBit 248 4 = true), (by decide : Nat.testBit 7 4 = false),
        (by decide : Nat.testBit 248 5 = true), (by decide : Nat.testBit 7 5 = false),
        (by decide : Nat.testBit 248 6 = true), (by decide : Nat.testBit 7 6 = false),
        (by decide : Nat.testBit 248 7 = true), (by decide : Nat.testBit 7 7 = false)]

/-- C10 witness: the theorem applied at the reset PPU (STAT = 0x81) and
the written value 0xFF, with the bit indices 1 (kept) and 3 (taken from
the value) instantiated. -/
theorem stat_write_touches_only_high_bits_witness :
    ∃ p', Ppu.write Ppu.new 0xFF41 0xFF = some p' ∧
      p'.reg_stat.testBit 1 = Ppu.new.reg_stat.testBit 1 ∧
      p'.reg_stat.testBit 3 = (0xFF : Nat).testBit 3 := by
  obtain ⟨p', heq, hlow, hhigh, -, -, -⟩ :=
    stat_write_touches_only_high_bits Ppu.new 0xFF
  exact ⟨p', heq, hlow 1 (by norm_num), hhigh 3 (by norm_num) (by norm_num)⟩

/-! ## ppu/sprite.rs, ppu/pipeline.rs, ppu/ppu.rs — OAM sprite scan (C5)

`Ppu::scan_sprites` walks the 40 OAM entries (stride 4), pushes every
sprite whose Y covers `LY + 16` until 10 are collected, then calls
`Pipeline::sort_sprites`, which is `slice::sort_unstable` under the
`Ord for Sprite` instance comparing only `x`.  `sort_unstable`'s contract
is a sorted permutation with *no* guarantee about equal elements, so the
sort is embedded as a relation admitting every sorted permutation.

In the scanned range LY ≤ 153, `rel_y = LY + 16 ≤ 169`, so the u8
additions `reg_ly + 16` and `y + obj_size` in the source cannot wrap in
any case in which the comparison can succeed; they are embedded as plain
`Nat` additions. -/

/-- `Sprite` (ppu/sprite.rs): X, Y, tile index and attribute byte. -/
structure Sprite where
  x : Nat
  y : Nat
  tile_index : Nat
  attrs : Nat
  deriving DecidableEq

/-- The collection loop of `Ppu::scan_sprites` (ppu/ppu.rs lines
489..512): `fuel` counts the remaining OAM entries (40 at entry), `i` is
the OAM byte index, `cnt` the number of sprites collected so far.  The
`break` after the tenth push is the inner `if`. -/
def Ppu.scan_go (oam : Nat → Nat) (rel_y obj_size : Nat) :
    Nat → Nat → Nat → List Sprite
  | 0, _, _ => []
  | fuel + 1, i, cnt =>
    if oam i ≤ rel_y ∧ rel_y < oam i + obj_size then
      ⟨oam (i + 1), oam i, oam (i + 2), oam (i + 3)⟩ ::
        (if 10 ≤ cnt + 1 then []
         else Ppu.scan_go oam rel_y obj_size fuel (i + 4) (cnt + 1))
    else Ppu.scan_go oam rel_y obj_size fuel (i + 4) cnt

/-- The list `Ppu::scan_sprites` has collected just before sorting:
`rel_y = LY + 16`, all 40 OAM entries visited. -/
def Ppu.scan_collect (oam : Nat → Nat) (ly obj_size : Nat) : List Sprite :=
  Ppu.scan_go oam (ly + 16) obj_size 40 0 0

/-- Relational embedding of `Ppu::scan_sprites`: the outputs that
`Pipeline::sort_sprites` (= `sort_unstable` by `Sprite::cmp`, which
compares `x` only) may leave in `obj_list` — every permutation of the
collected list that is non-decreasing in `x`. -/
def Ppu.scan_sprites_rel (oam : Nat → Nat) (ly obj_size : Nat)
    (out : List Sprite) : Prop :=
  out.Perm (Ppu.scan_collect oam ly obj_size) ∧
  out.Pairwise (fun a b => a.x ≤ b.x)

/-- Modelled from the spec: "sorted by X (stable tiebreak = OAM order)" —
a stable insertion sort by `x`; sprites equal in `x` keep their input
(OAM) order. -/
def insert_by_x (s : Sprite) : List Sprite → List Sprite
  | [] => [s]
  | t :: ts => if s.x ≤ t.x then s :: t :: ts else t :: insert_by_x s ts

/-- Modelled from the spec: the stable sort by X that the claim asserts
the scan produces. -/
def stable_sort_by_x : List Sprite → List Sprite
  | [] => []
  | s :: ts => insert_by_x s (stable_sort_by_x ts)

/-! ### C5 -/

/-- C5 counterexample: with two sprites sharing X = 5 on the scanline
(OAM order: tile 0 then tile 1), the output that lists tile 1 first is an
admissible result of the embedded scan (it is a sorted permutation, which
is all `sort_unstable` promises), yet it differs from the stable sort the
claim requires. -/
theorem sprite_sort_tie_order_not_guaranteed :
    Ppu.scan_sprites_rel (fun i => [16, 5, 0, 0, 16, 5, 1, 0].getD i 0) 0 8
      [⟨5, 16, 1, 0⟩, ⟨5, 16, 0, 0⟩] ∧
    [(⟨5, 16, 1, 0⟩ : Sprite), ⟨5, 16, 0, 0⟩] ≠
      stable_sort_by_x
        (Ppu.scan_collect (fun i => [16, 5, 0, 0, 16, 5, 1, 0].getD i 0) 0 8) := by
  refine ⟨⟨by decide, by decide⟩, by decide⟩

theorem scan_go_length_le (oam : Nat → Nat) (rel_y obj_size : Nat) :
    ∀ fuel i cnt, cnt < 10 →
      (Ppu.scan_go oam rel_y obj_size fuel i cnt).length ≤ 10 - cnt := by
  intro fuel
  induction fuel with
  | zero => intro i cnt h; simp [Ppu.scan_go]
  | succ n ih =>
    intro i cnt h
    unfold Ppu.scan_go
    split
    · split
      · simpa using by omega
      · rename_i hten
        have := ih (i + 4) (cnt + 1) (by omega)
        simp only [List.length_cons]
        omega
    · have := ih (i + 4) cnt h
      omega

theorem scan_go_mem_covers (oam : Nat → Nat) (rel_y obj_size : Nat) :
    ∀ fuel i cnt s, s ∈ Ppu.scan_go oam rel_y obj_size fuel i cnt →
      s.y ≤ rel_y ∧ rel_y < s.y + obj_size := by
  intro fuel
  induction fuel with
  | zero => intro i cnt s h; simp [Ppu.scan_go] at h
  | succ n ih =>
    intro i cnt s h
    unfold Ppu.scan_go at h
    split at h
    · rename_i hcov
      rcases List.mem_cons.mp h with heq | htail
      · subst heq; exact hcov
      · split at htail
        · simp at htail
        · exact ih _ _ _ htail
    · exact ih _ _ _ h

/-- C5 (amended): every output the scan-and-sort may produce is a
permutation, non-decreasing in X, of the first at most 10 OAM sprites
whose Y covers LY + 16 for the current sprite height; the order of
sprites with equal X is not guaranteed (the sort is unstable). -/
theorem scan_sprites_sorted_at_most_ten (oam : Nat → Nat) (ly obj_size : Nat)
    (out : List Sprite) (h : Ppu.scan_sprites_rel oam ly obj_size out) :
    out.Pairwise (fun a b => a.x ≤ b.x) ∧
    out.length ≤ 10 ∧
    (∀ s ∈ out, s.y ≤ ly + 16 ∧ ly + 16 < s.y + obj_size) ∧
    out.Perm (Ppu.scan_collect oam ly obj_size) := by
  obtain ⟨hperm, hsorted⟩ := h
  refine ⟨hsorted, ?_, ?_, hperm⟩
  · rw [hperm.length_eq]
    simpa using scan_go_length_le oam (ly + 16) obj_size 40 0 0 (by norm_num)
  · intro s hs
    exact scan_go_mem_covers oam (ly + 16) obj_size 40 0 0 s (hperm.mem_iff.mp hs)

/-- C5 witness: the amended theorem applied to the all-zero OAM on line 0
with 8-pixel sprites, where the scan collects nothing and the empty
output is the unique admissible result. -/
theorem scan_sprites_sorted_at_most_ten_witness :
    ([] : List Sprite).Pairwise (fun a b => a.x ≤ b.x) ∧
    ([] : List Sprite).length ≤ 10 ∧
    (∀ s ∈ ([] : List Sprite), s.y ≤ 0 + 16 ∧ 0 + 16 < s.y + 8) ∧
    ([] : List Sprite).Perm (Ppu.scan_collect (fun _ => 0) 0 8) :=
  scan_sprites_sorted_at_most_ten (fun _ => 0) 0 8 [] ⟨by decide, by decide⟩

/-! ## apu/channel1.rs .. channel4.rs, apu/modulation.rs, apu/apu.rs

The channel registers, the trigger paths, the `MemoryRegion::write`
implementations and `Apu::write` are embedded; register values are bytes
(< 256) as guaranteed by the bus. -/

/-- `Channel1` state (pulse with sweep). -/
structure Channel1 where
  enabled : Bool
  reg_nr10 : Nat
  reg_nr11 : Nat
  reg_nr12 : Nat
  reg_nr13 : Nat
  reg_nr14 : Nat
  current_volume : Nat
  envelope_timer : Nat
  wave_cursor : Nat
  frequency_timer : Nat
  length_counter : Nat
  length_half_period : Bool
  sweep_timer : Nat
  shadow_frequency : Nat
  sweep_enabled : Bool
  sweep_was_decreasing : Bool

/-- `Channel1::new` (NR10=0x80, NR11=0xBF, NR12=0xF3, NR13=0xFF, NR14=0xBF). -/
def Channel1.new : Channel1 :=
  { enabled := false, reg_nr10 := 0x80, reg_nr11 := 0xBF, reg_nr12 := 0xF3,
    reg_nr13 := 0xFF, reg_nr14 := 0xBF,
    current_volume := 0xF3 >>> 4, envelope_timer := 0xF3 &&& 0b111,
    wave_cursor := 0, frequency_timer := 4, length_counter := 64,
    length_half_period := false, sweep_timer := 0, shadow_frequency := 0,
    sweep_enabled := false, sweep_was_decreasing := false }

/-- `Clock::frequency` for channel 1: NR14 bits 2..0 high, NR13 low. -/
def Channel1.frequency (c : Channel1) : Nat :=
  ((c.reg_nr14 &&& 0b111) <<< 8) ||| c.reg_nr13

/-- `Channel::is_dac_enabled` for channel 1: NR12 top five bits. -/
def Channel1.is_dac_enabled (c : Channel1) : Prop := c.reg_nr12 &&& 0b11111000 ≠ 0

instance (c : Channel1) : Decidable c.is_dac_enabled := by
  unfold Channel1.is_dac_enabled; infer_instance

/-- `LengthModulation::is_length_enabled` for channel 1: NR14 bit 6. -/
def Channel1.is_length_enabled (c : Channel1) : Prop := c.reg_nr14 &&& 0x40 = 0x40

instance (c : Channel1) : Decidable c.is_length_enabled := by
  unfold Channel1.is_length_enabled; infer_instance

/-- `SweepModulation::sweep_period`: NR10 bits 6..4. -/
def Channel1.sweep_period (c : Channel1) : Nat := (c.reg_nr10 >>> 4) &&& 0b111

/-- `SweepModulation::is_sweep_decreasing`: NR10 bit 3. -/
def Channel1.is_sweep_decreasing (c : Channel1) : Prop := c.reg_nr10 &&& 0b1000 = 0b1000

instance (c : Channel1) : Decidable c.is_sweep_decreasing := by
  unfold Channel1.is_sweep_decreasing; infer_instance

/-- `SweepModulation::sweep_shift`: NR10 bits 2..0. -/
def Channel1.sweep_shift (c : Channel1) : Nat := c.reg_nr10 &&& 0b111

/-- `Clock::reset_frequency_timer` (default impl): `(0x800 − f) · 4`. -/
def Channel1.reset_frequency_timer (c : Channel1) : Channel1 :=
  { c with frequency_timer := (0x800 - c.frequency) * 4 }

/-- `EnvelopeModulation::reset_envelope`. -/
def Channel1.reset_envelope (c : Channel1) : Channel1 :=
  { c with current_volume := c.reg_nr12 >>> 4, envelope_timer := c.reg_nr12 &&& 0b111 }

/-- `SweepModulation::calculate_sweep_frequency`: returns the updated
channel (neg-mode latch, overflow disable) and the new frequency. -/
def Channel1.calculate_sweep_frequency (c : Channel1) : Channel1 × Nat :=
  let nf0 := c.shadow_frequency >>> c.sweep_shift
  let (c1, nf) :=
    if c.is_sweep_decreasing then
      ({ c with sweep_was_decreasing := true }, c.shadow_frequency - nf0)
    else (c, c.shadow_frequency + nf0)
  if 0x7FF < nf then ({ c1 with enabled := false }, nf) else (c1, nf)

/-- `SweepModulation::reset_sweep`. -/
def Channel1.reset_sweep (c : Channel1) : Channel1 :=
  let c1 := { c with sweep_was_decreasing := false }
  let c2 := { c1 with shadow_frequency := c1.frequency }
  let period := c2.sweep_period
  let c3 := { c2 with sweep_timer := if 0 < period then period else 8 }
  let c4 := { c3 with sweep_enabled := period ≠ 0 ∨ c3.sweep_shift ≠ 0 }
  if 0 < c4.sweep_shift then (c4.calculate_sweep_frequency).1 else c4

/-- `Channel::trigger` for channel 1. -/
def Channel1.trigger (c : Channel1) : Channel1 :=
  let c1 := if c.is_dac_enabled then { c with enabled := true } else c
  let c2 :=
    if c1.length_counter = 0 then
      let ca := { c1 with length_counter := 64 }
      if ca.is_length_enabled ∧ ca.length_half_period then
        { ca with length_counter := ca.length_counter - 1 }
      else ca
    else c1
  (c2.reset_frequency_timer.reset_envelope).reset_sweep

/-- `MemoryRegion::write` for channel 1 (channel1.rs lines 217..256);
addresses outside NR10..NR14 are unreachable in the source and return
the state unchanged here (the APU dispatch never sends them). -/
def Channel1.write (c : Channel1) (addr v : Nat) : Channel1 :=
  if addr = 0xFF10 then
    let c1 := { c with reg_nr10 := v }
    if ¬c1.is_sweep_decreasing ∧ c1.sweep_was_decreasing then
      { c1 with enabled := false }
    else c1
  else if addr = 0xFF11 then
    { c with length_counter := 64 - (v &&& 0b111111), reg_nr11 := v }
  else if addr = 0xFF12 then
    let c1 := { c with reg_nr12 := v }
    if ¬c1.is_dac_enabled then { c1 with enabled := false } else c1
  else if addr = 0xFF13 then { c with reg_nr13 := v }
  else if addr = 0xFF14 then
    let c1 :=
      if c.length_half_period ∧ ¬c.is_length_enabled ∧ v &&& 0x40 = 0x40 ∧
          0 < c.length_counter then
        let ca := { c with length_counter := c.length_counter - 1 }
        if ca.length_counter = 0 then { ca with enabled := false } else ca
      else c
    let c2 := { c1 with reg_nr14 := v }
    if v &&& 0x80 = 0x80 then c2.trigger else c2
  else c

/-- `Channel2` state (pulse). -/
structure Channel2 where
  enabled : Bool
  reg_nr21 : Nat
  reg_nr22 : Nat
  reg_nr23 : Nat
  reg_nr24 : Nat
  current_volume : Nat
  envelope_timer : Nat
  wave_cursor : Nat
  frequency_timer : Nat
  length_counter : Nat
  length_half_period : Bool

/-- `Channel2::new` (NR21=0x3F, NR22=0x00, NR23=0xFF, NR24=0xBF). -/
def Channel2.new : Channel2 :=
  { enabled := false, reg_nr21 := 0x3F, reg_nr22 := 0x00, reg_nr23 := 0xFF,
    reg_nr24 := 0xBF, current_volume := 0, envelope_timer := 0,
    wave_cursor := 0, frequency_timer := 4, length_counter := 64,
    length_half_period := false }

/-- `Clock::frequency` for channel 2. -/
def Channel2.frequency (c : Channel2) : Nat :=
  ((c.reg_nr24 &&& 0b111) <<< 8) ||| c.reg_nr23

/-- `Channel::is_dac_enabled` for channel 2. -/
def Channel2.is_dac_enabled (c : Channel2) : Prop := c.reg_nr22 &&& 0b11111000 ≠ 0

instance (c : Channel2) : Decidable c.is_dac_enabled := by
  unfold Channel2.is_dac_enabled; infer_instance

/-- `LengthModulation::is_length_enabled` for channel 2: NR24 bit 6. -/
def Channel2.is_length_enabled (c : Channel2) : Prop := c.reg_nr24 &&& 0x40 = 0x40

instance (c : Channel2) : Decidable c.is_length_enabled := by
  unfold Channel2.is_length_enabled; infer_instance

/-- `Channel::trigger` for channel 2 (reset frequency timer, envelope,
wave cursor). -/
def Channel2.trigger (c : Channel2) : Channel2 :=
  let c1 := if c.is_dac_enabled then { c with enabled := true } else c
  let c2 :=
    if c1.length_counter = 0 then
      let ca := { c1 with length_counter := 64 }
      if ca.is_length_enabled ∧ ca.length_half_period then
        { ca with length_counter := ca.length_counter - 1 }
      else ca
    else c1
  { c2 with frequency_timer := (0x800 - c2.frequency) * 4,
            current_volume := c2.reg_nr22 >>> 4,
            envelope_timer := c2.reg_nr22 &&& 0b111,
            wave_cursor := 0 }

/-- `MemoryRegion::write` for channel 2. -/
def Channel2.write (c : Channel2) (addr v : Nat) : Channel2 :=
  if addr = 0xFF16 then
    { c with length_counter := 64 - (v &&& 0b111111), reg_nr21 := v }
  else if addr = 0xFF17 then
    let c1 := { c with reg_nr22 := v }
    if ¬c1.is_dac_enabled then { c1 with enabled := false } else c1
  else if addr = 0xFF18 then { c with reg_nr23 := v }
  else if addr = 0xFF19 then
    let c1 :=
      if c.length_half_period ∧ ¬c.is_length_enabled ∧ v &&& 0x40 = 0x40 ∧
          0 < c.length_counter then
        let ca := { c with length_counter := c.length_counter - 1 }
        if ca.length_counter = 0 then { ca with enabled := false } else ca
      else c
    let c2 := { c1 with reg_nr24 := v }
    if v &&& 0x80 = 0x80 then c2.trigger else c2
  else c

/-- `Channel3` state (wave). -/
structure Channel3 where
  enabled : Bool
  reg_nr30 : Nat
  reg_nr31 : Nat
  reg_nr32 : Nat
  reg_nr33 : Nat
  reg_nr34 : Nat
  length_counter : Nat
  length_half_period : Bool
  frequency_timer : Nat
  wave_cursor : Nat
  wave_ram : Nat → Nat
  current_wave_sample : Nat
  wave_just_read : Bool

/-- `Channel3::new` (NR30=0x7F, NR31=0xFF, NR32=0x9F, NR33=0xFF, NR34=0xBF). -/
def Channel3.new : Channel3 :=
  { enabled := false, reg_nr30 := 0x7F, reg_nr31 := 0xFF, reg_nr32 := 0x9F,
    reg_nr33 := 0xFF, reg_nr34 := 0xBF, length_counter := 256,
    length_half_period := false, frequency_timer := 4, wave_cursor := 0,
    wave_ram := fun _ => 0, current_wave_sample := 0, wave_just_read := false }

/-- `Clock::frequency` for channel 3. -/
def Channel3.frequency (c : Channel3) : Nat :=
  ((c.reg_nr34 &&& 0b111) <<< 8) ||| c.reg_nr33

/-- `Channel::is_dac_enabled` for channel 3: NR30 bit 7. -/
def Channel3.is_dac_enabled (c : Channel3) : Prop := c.reg_nr30 &&& 0x80 = 0x80

instance (c : Channel3) : Decidable c.is_dac_enabled := by
  unfold Channel3.is_dac_enabled; infer_instance

/-- `LengthModulation::is_length_enabled` for channel 3: NR34 bit 6. -/
def Channel3.is_length_enabled (c : Channel3) : Prop := c.reg_nr34 &&& 0x40 = 0x40

instance (c : Channel3) : Decidable c.is_length_enabled := by
  unfold Channel3.is_length_enabled; infer_instance

/-- `Channel::trigger` for channel 3 (timer `(0x800 − f)·2` plus the
source's "+6 ticks" adjustment, wave cursor reset). -/
def Channel3.trigger (c : Channel3) : Channel3 :=
  let c1 := if c.is_dac_enabled then { c with enabled := true } else c
  let c2 :=
    if c1.length_counter = 0 then
      let ca := { c1 with length_counter := 256 }
      if ca.is_length_enabled ∧ ca.length_half_period then
        { ca with length_counter := ca.length_counter - 1 }
      else ca
    else c1
  let c3 := { c2 with frequency_timer := (0x800 - c2.frequency) * 2 }
  let c4 := { c3 with frequency_timer := c3.frequency_timer + 6 }
  { c4 with wave_cursor := 0 }

/-- `MemoryRegion::write` for channel 3 (registers and wave RAM). -/
def Channel3.write (c : Channel3) (addr v : Nat) : Channel3 :=
  if addr = 0xFF1A then
    let c1 := { c with reg_nr30 := v }
    if ¬c1.is_dac_enabled then { c1 with enabled := false } else c1
  else if addr = 0xFF1B then
    { c with length_counter := 256 - v, reg_nr31 := v }
  else if addr = 0xFF1C then { c with reg_nr32 := v }
  else if addr = 0xFF1D then { c with reg_nr33 := v }
  else if addr = 0xFF1E then
    let c1 :=
      if c.length_half_period ∧ ¬c.is_length_enabled ∧ v &&& 0x40 = 0x40 ∧
          0 < c.length_counter then
        let ca := { c with length_counter := c.length_counter - 1 }
        if ca.length_counter = 0 then { ca with enabled := false } else ca
      else c
    let c2 := { c1 with reg_nr34 := v }
    if v &&& 0x80 = 0x80 then c2.trigger else c2
  else if 0xFF30 ≤ addr ∧ addr ≤ 0xFF3F then
    if c.enabled then
      if c.wave_just_read then
        { c with wave_ram := fun i =>
            if i = c.wave_cursor / 2 then v else c.wave_ram i }
      else c
    else
      { c with wave_ram := fun i =>
          if i = addr - 0xFF30 then v else c.wave_ram i }
  else c

/-- `Channel4` state (noise). -/
structure Channel4 where
  enabled : Bool
  reg_nr41 : Nat
  reg_nr42 : Nat
  reg_nr43 : Nat
  reg_nr44 : Nat
  current_volume : Nat
  envelope_timer : Nat
  frequency_timer : Nat
  length_counter : Nat
  length_half_period : Bool
  lfsr : Nat

/-- `Channel4::new` (NR41=0x3F, NR42=0x00, NR43=0xFF, NR44=0xBF). -/
def Channel4.new : Channel4 :=
  { enabled := false, reg_nr41 := 0x3F, reg_nr42 := 0x00, reg_nr43 := 0xFF,
    reg_nr44 := 0xBF, current_volume := 0, envelope_timer := 0,
    frequency_timer := 4, length_counter := 64, length_half_period := false,
    lfsr := 0 }

/-- `Channel::is_dac_enabled` for channel 4. -/
def Channel4.is_dac_enabled (c : Channel4) : Prop := c.reg_nr42 &&& 0b11111000 ≠ 0

instance (c : Channel4) : Decidable c.is_dac_enabled := by
  unfold Channel4.is_dac_enabled; infer_instance

/-- `LengthModulation::is_length_enabled` for channel 4: NR44 bit 6. -/
def Channel4.is_length_enabled (c : Channel4) : Prop := c.reg_nr44 &&& 0x40 = 0x40

instance (c : Channel4) : Decidable c.is_length_enabled := by
  unfold Channel4.is_length_enabled; infer_instance

/-- `Channel::trigger` for channel 4 (envelope reset, LFSR := 0x7FFF). -/
def Channel4.trigger (c : Channel4) : Channel4 :=
  let c1 := if c.is_dac_enabled then { c with enabled := true } else c
  let c2 :=
    if c1.length_counter = 0 then
      let ca := { c1 with length_counter := 64 }
      if ca.is_length_enabled ∧ ca.length_half_period then
        { ca with length_counter := ca.length_counter - 1 }
      else ca
    else c1
  { c2 with current_volume := c2.reg_nr42 >>> 4,
            envelope_timer := c2.reg_nr42 &&& 0b111,
            lfsr := 0x7FFF }

/-- `MemoryRegion::write` for channel 4. -/
def Channel4.write (c : Channel4) (addr v : Nat) : Channel4 :=
  if addr = 0xFF20 then
    { c with length_counter := 64 - (v &&& 0b111111), reg_nr41 := v }
  else if addr = 0xFF21 then
    let c1 := { c with reg_nr42 := v }
    if ¬c1.is_dac_enabled then { c1 with enabled := false } else c1
  else if addr = 0xFF22 then { c with reg_nr43 := v }
  else if addr = 0xFF23 then
    let c1 :=
      if c.length_half_period ∧ ¬c.is_length_enabled ∧ v &&& 0x40 = 0x40 ∧
          0 < c.length_counter then
        let ca := { c with length_counter := c.length_counter - 1 }
        if ca.length_counter = 0 then { ca with enabled := false } else ca
      else c
    let c2 := { c1 with reg_nr44 := v }
    if v &&& 0x80 = 0x80 then c2.trigger else c2
  else c

/-- `Apu` state. -/
structure Apu where
  reg_nr50 : Nat
  reg_nr51 : Nat
  reg_nr52 : Nat
  ticks : Nat
  fs_step : Nat
  channel_1 : Channel1
  channel_2 : Channel2
  channel_3 : Channel3
  channel_4 : Channel4

/-- `Apu::new` (NR50=0x77, NR51=0xF3, NR52=0xF1). -/
def Apu.new : Apu :=
  { reg_nr50 := 0x77, reg_nr51 := 0xF3, reg_nr52 := 0xF1, ticks := 0,
    fs_step := 0, channel_1 := Channel1.new, channel_2 := Channel2.new,
    channel_3 := Channel3.new, channel_4 := Channel4.new }

/-- `Apu::is_enabled`: NR52 bit 7. -/
def Apu.is_enabled (a : Apu) : Bool := (a.reg_nr52 >>> 7) != 0

/-- `Apu::write` for every address except NR52 (apu.rs lines 224..261):
first the APU-off gate — note the source excepts only the single wave-RAM
address `WAVE_PATTERN_RAM_START` (0xFF30), the four length registers and
NR52 — then the dispatch to the channel writes and NR50/NR51.  The
source's `_ => ()` arm is the final `else`. -/
def Apu.write_non_master (a : Apu) (addr v : Nat) : Apu :=
  if a.is_enabled = false ∧ addr ≠ 0xFF30 ∧ addr ≠ 0xFF11 ∧ addr ≠ 0xFF16 ∧
      addr ≠ 0xFF1B ∧ addr ≠ 0xFF20 ∧ addr ≠ 0xFF26 then a
  else if 0xFF10 ≤ addr ∧ addr ≤ 0xFF14 then
    { a with channel_1 := a.channel_1.write addr v }
  else if 0xFF16 ≤ addr ∧ addr ≤ 0xFF19 then
    { a with channel_2 := a.channel_2.write addr v }
  else if (0xFF1A ≤ addr ∧ addr ≤ 0xFF1E) ∨ (0xFF30 ≤ addr ∧ addr ≤ 0xFF3F) then
    { a with channel_3 := a.channel_3.write addr v }
  else if 0xFF20 ≤ addr ∧ addr ≤ 0xFF23 then
    { a with channel_4 := a.channel_4.write addr v }
  else if addr = 0xFF24 then { a with reg_nr50 := v }
  else if addr = 0xFF25 then { a with reg_nr51 := v }
  else a

/-- The NR52 arm of `Apu::write`: on a 1→0 transition of bit 7 the
source writes 0x00 through `self.write` to every register in
`REG_NR10_ADDR..REG_NR52_ADDR` (0xFF10..=0xFF25; none of them is NR52,
so each such call is `write_non_master`), then restores the four length
counters, and finally stores `value & 0x80`. -/
def Apu.write_nr52 (a : Apu) (v : Nat) : Apu :=
  let len1 := a.channel_1.length_counter
  let len2 := a.channel_2.length_counter
  let len3 := a.channel_3.length_counter
  let len4 := a.channel_4.length_counter
  let a1 :=
    if v &&& 0x80 = 0x80 ∧ a.is_enabled = false then { a with fs_step := 0 }
    else if ¬(v &&& 0x80 = 0x80) ∧ a.is_enabled = true then
      (List.range' 0xFF10 22).foldl (fun acc ad => acc.write_non_master ad 0x00) a
    else a
  let a2 := { a1 with
    channel_1 := { a1.channel_1 with length_counter := len1 % 256 },
    channel_2 := { a1.channel_2 with length_counter := len2 % 256 },
    channel_3 := { a1.channel_3 with length_counter := len3 },
    channel_4 := { a1.channel_4 with length_counter := len4 % 256 } }
  { a2 with reg_nr52 := v &&& 0x80 }

/-- `Apu::write`: the gate never blocks the NR52 address (the gate
condition contains `address != REG_NR52_ADDR`), so dispatching NR52
before the gated remainder is equivalent to the source's order. -/
def Apu.write (a : Apu) (addr v : Nat) : Apu :=
  if addr = 0xFF26 then a.write_nr52 v else a.write_non_master addr v

/-! ### C7 -/

/-- C7 (amended): while the APU master enable is off, a write to any
audio register other than the four length-counter registers
(NR11/NR21/NR31/NR41), NR52, and the first wave-RAM byte 0xFF30 leaves
the APU state unchanged. -/
theorem apu_write_ignored_when_off (a : Apu) (addr v : Nat)
    (hoff : a.is_enabled = false)
    (h30 : addr ≠ 0xFF30) (h11 : addr ≠ 0xFF11) (h21 : addr ≠ 0xFF16)
    (h31 : addr ≠ 0xFF1B) (h41 : addr ≠ 0xFF20) (h52 : addr ≠ 0xFF26) :
    Apu.write a addr v = a := by
  unfold Apu.write Apu.write_non_master
  rw [if_neg h52, if_pos ⟨hoff, h30, h11, h21, h31, h41, h52⟩]

/-- C7 witness: with the APU turned off, a write to NR12 (0xFF12) is
ignored. -/
theorem apu_write_ignored_when_off_witness :
    Apu.write (Apu.write Apu.new 0xFF26 0x00) 0xFF12 0xFF =
      Apu.write Apu.new 0xFF26 0x00 :=
  apu_write_ignored_when_off (Apu.write Apu.new 0xFF26 0x00) 0xFF12 0xFF
    (by decide) (by decide) (by decide) (by decide) (by decide) (by decide)
    (by decide)

set_option maxRecDepth 8192 in
/-- C7 counterexample: with the APU turned off (NR52 bit 7 written 0),
a write to the wave-RAM byte 0xFF30 — an audio register that is neither
a length counter nor NR52 — is *not* ignored: it stores the byte into
channel 3's wave RAM and so changes the APU state. -/
theorem apu_off_wave_ram_write_not_ignored :
    (Apu.write (Apu.write Apu.new 0xFF26 0x00) 0xFF30 0xAB).channel_3.wave_ram 0
      = 0xAB ∧
    (Apu.write Apu.new 0xFF26 0x00).channel_3.wave_ram 0 = 0 ∧
    (Apu.write Apu.new 0xFF26 0x00).is_enabled = false ∧
    Apu.write (Apu.write Apu.new 0xFF26 0x00) 0xFF30 0xAB ≠
      Apu.write Apu.new 0xFF26 0x00 := by
  refine ⟨by decide, by decide, by decide, fun heq => ?_⟩
  have h := congrArg (fun s => s.channel_3.wave_ram 0) heq
  simp only at h
  rw [(by decide :
        (Apu.write (Apu.write Apu.new 0xFF26 0x00) 0xFF30 0xAB).channel_3.wave_ram 0
          = 0xAB),
      (by decide : (Apu.write Apu.new 0xFF26 0x00).channel_3.wave_ram 0 = 0)] at h
  exact absurd h (by decide)

/-! ## cpu.rs

The CPU state and the parts of `Cpu::step` / `Cpu::decode_execute` the
claims exercise.  The bus the CPU reads and writes through is modelled as
a flat byte map `Mem` (`bus.read a = m a`, `bus.write` updates the map);
the IF and IE registers live at their bus addresses 0xFF0F / 0xFFFF, as
routed by bus.rs, and `bus.it.clear` is the masked store the
`InterruptHandler` performs on IF.  `decode_execute` is embedded for the
opcodes the claims exercise (NOP, PUSH rr, POP rr); all other opcodes are
out of the embedding's scope and yield `none` — no theorem below
evaluates them.  `make_u16!(h, l) = (h << 8) | l` on bytes equals
`h * 256 + l`, which is how the register pairs are embedded. -/

/-- The CPU-visible memory: a byte map over bus addresses. -/
def Mem : Type := Nat → Nat

/-- A bus write: update one address. -/
def Mem.write (m : Mem) (addr v : Nat) : Mem :=
  fun i => if i = addr then v else m i

/-- `Cpu` state (registers and the four state booleans). -/
structure Cpu where
  a : Nat
  f : Nat
  b : Nat
  c : Nat
  d : Nat
  e : Nat
  h : Nat
  l : Nat
  pc : Nat
  sp : Nat
  halted : Bool
  stopped : Bool
  master_ie : Bool
  enabling_ie : Bool

/-- `Cpu::new` (DMG reset values). -/
def Cpu.new : Cpu :=
  { a := 0x01, f := 0xB0, b := 0x00, c := 0x13, d := 0x00, e := 0xD8,
    h := 0x01, l := 0x4D, pc := 0x0100, sp := 0xFFFE,
    halted := false, stopped := false, master_ie := true, enabling_ie := false }

/-- `Cpu::af` = `make_u16!(a, f)`. -/
def Cpu.af (c : Cpu) : Nat := (c.a % 256) * 256 + c.f % 256

/-- `Cpu::bc`. -/
def Cpu.bc (c : Cpu) : Nat := (c.b % 256) * 256 + c.c % 256

/-- `Cpu::de`. -/
def Cpu.de (c : Cpu) : Nat := (c.d % 256) * 256 + c.e % 256

/-- `Cpu::hl`. -/
def Cpu.hl (c : Cpu) : Nat := (c.h % 256) * 256 + c.l % 256

/-- `Cpu::set_af` (`a = value >> 8 as u8`, `f = value as u8`). -/
def Cpu.set_af (c : Cpu) (v : Nat) : Cpu :=
  { c with a := (v >>> 8) % 256, f := v % 256 }

/-- `Cpu::set_bc`. -/
def Cpu.set_bc (c : Cpu) (v : Nat) : Cpu :=
  { c with b := (v >>> 8) % 256, c := v % 256 }

/-- `Cpu::set_de`. -/
def Cpu.set_de (c : Cpu) (v : Nat) : Cpu :=
  { c with d := (v >>> 8) % 256, e := v % 256 }

/-- `Cpu::set_hl`. -/
def Cpu.set_hl (c : Cpu) (v : Nat) : Cpu :=
  { c with h := (v >>> 8) % 256, l := v % 256 }

/-- `Cpu::push` (cpu.rs lines 176..182): decrement SP, store the value's
high byte, decrement SP, store the low byte. -/
def Cpu.push (c : Cpu) (m : Mem) (value : Nat) : Cpu × Mem :=
  let sp1 := (c.sp + 65535) % 65536
  let m1 := Mem.write m sp1 ((value >>> 8) % 256)
  let sp2 := (sp1 + 65535) % 65536
  let m2 := Mem.write m1 sp2 (value % 256)
  ({ c with sp := sp2 }, m2)

/-- `Cpu::pop` (cpu.rs lines 184..191): read low then high byte,
incrementing SP twice; returns `(h << 8) | l`. -/
def Cpu.pop (c : Cpu) (m : Mem) : Cpu × Nat :=
  let lo := m c.sp
  let sp1 := (c.sp + 1) % 65536
  let hi := m sp1
  ({ c with sp := (sp1 + 1) % 65536 }, (hi % 256) * 256 + lo % 256)

/-- `Cpu::decode_execute`, embedded for the opcodes the claims exercise:
NOP (0x00), PUSH AF/BC/DE/HL (0xF5/0xC5/0xD5/0xE5) and POP AF/BC/DE/HL
(0xF1/0xC1/0xD1/0xE1, with POP AF masking `rr & 0xFFF0`).  Every other
opcode is outside this embedding and returns `none`. -/
def Cpu.decode_execute (c : Cpu) (m : Mem) (op : Nat) :
    Option (Cpu × Mem × Nat) :=
  if op = 0x00 then some (c, m, 4)
  else if op = 0xF5 then
    let r := c.push m c.af
    some (r.1, r.2, 16)
  else if op = 0xC5 then
    let r := c.push m c.bc
    some (r.1, r.2, 16)
  else if op = 0xD5 then
    let r := c.push m c.de
    some (r.1, r.2, 16)
  else if op = 0xE5 then
    let r := c.push m c.hl
    some (r.1, r.2, 16)
  else if op = 0xF1 then
    let r := c.pop m
    some (r.1.set_af (r.2 &&& 0xFFF0), m, 12)
  else if op = 0xC1 then
    let r := c.pop m
    some (r.1.set_bc r.2, m, 12)
  else if op = 0xD1 then
    let r := c.pop m
    some (r.1.set_de r.2, m, 12)
  else if op = 0xE1 then
    let r := c.pop m
    some (r.1.set_hl r.2, m, 12)
  else none

/-- One arm of the `handle_interrupt!` macro in `Cpu::step`: if the flag
is enabled (IE) and requested (IF), push PC, jump to the vector, clear
the flag in IF, clear HALT and IME. -/
def Cpu.handle_interrupt (c : Cpu) (m : Mem) (flag vector : Nat) :
    Option (Cpu × Mem) :=
  if m 0xFFFF &&& flag ≠ 0 ∧ m 0xFF0F &&& flag ≠ 0 then
    let pm := c.push m c.pc
    some ({ pm.1 with pc := vector, halted := false, master_ie := false },
          Mem.write pm.2 0xFF0F ((pm.2 0xFF0F) &&& (255 - flag % 256)))
  else none

/-- The `||`-chain of `handle_interrupt!` invocations: at most one
interrupt is serviced, in priority order VBlank, LCD-STAT, Timer,
Serial, Joypad. -/
def Cpu.service_interrupts (c : Cpu) (m : Mem) : Cpu × Mem :=
  match c.handle_interrupt m InterruptFlag.Vblank 0x40 with
  | some r => r
  | none =>
    match c.handle_interrupt m InterruptFlag.Lcdc 0x48 with
    | some r => r
    | none =>
      match c.handle_interrupt m InterruptFlag.TimerOverflow 0x50 with
      | some r => r
      | none =>
        match c.handle_interrupt m InterruptFlag.Serial 0x58 with
        | some r => r
        | none =>
          match c.handle_interrupt m InterruptFlag.Joypad 0x60 with
          | some r => r
          | none => (c, m)

/-- `Cpu::step` (cpu.rs lines 1849..1898): if not halted, fetch at PC
(incrementing it) and dispatch; if halted, clear `halted` when any IF
bit is set and consume 4 cycles.  Afterwards, when IME is set service at
most one interrupt, and commit a pending EI. -/
def Cpu.step (cpu : Cpu) (m : Mem) : Option (Cpu × Mem × Nat) :=
  match (if cpu.halted then
           some (if m 0xFF0F ≠ 0 then { cpu with halted := false } else cpu, m, 4)
         else
           Cpu.decode_execute { cpu with pc := (cpu.pc + 1) % 65536 } m (m cpu.pc)) with
  | none => none
  | some (c1, m1, ticks) =>
    let sm := if c1.master_ie = true then Cpu.service_interrupts c1 m1 else (c1, m1)
    let c3 := if sm.1.enabling_ie = true then { sm.1 with master_ie := true } else sm.1
    some (c3, sm.2, ticks)

theorem handle_interrupt_none_of_if_zero (c : Cpu) (m : Mem) (flag vector : Nat)
    (h0 : m 0xFF0F = 0) : c.handle_interrupt m flag vector = none := by
  unfold Cpu.handle_interrupt
  rw [if_neg]
  intro hcon
  rw [h0, Nat.zero_and] at hcon
  exact hcon.2 rfl

theorem handle_interrupt_halted_false (c : Cpu) (m : Mem) (flag vector : Nat)
    (r : Cpu × Mem) (h : c.handle_interrupt m flag vector = some r) :
    r.1.halted = false := by
  unfold Cpu.handle_interrupt at h
  split at h
  · cases h; rfl
  · cases h

theorem service_interrupts_halted_false (c : Cpu) (m : Mem)
    (hc : c.halted = false) : (Cpu.service_interrupts c m).1.halted = false := by
  unfold Cpu.service_interrupts
  split
  · rename_i r h; exact handle_interrupt_halted_false _ _ _ _ _ h
  · split
    · rename_i r h; exact handle_interrupt_halted_false _ _ _ _ _ h
    · split
      · rename_i r h; exact handle_interrupt_halted_false _ _ _ _ _ h
      · split
        · rename_i r h; exact handle_interrupt_halted_false _ _ _ _ _ h
        · split
          · rename_i r h; exact handle_interrupt_halted_false _ _ _ _ _ h
          · exact hc

/-! ### C4 -/

theorem cpu_step_halted_eq (cpu : Cpu) (m : Mem) (hh : cpu.halted = true) :
    Cpu.step cpu m =
      (let c1 := if m 0xFF0F ≠ 0 then { cpu with halted := false } else cpu
       let sm := if c1.master_ie = true then Cpu.service_interrupts c1 m else (c1, m)
       let c3 := if sm.1.enabling_ie = true then { sm.1 with master_ie := true }
                 else sm.1
       some (c3, sm.2, 4)) := by
  unfold Cpu.step
  rw [hh]
  rfl

theorem service_interrupts_of_if_zero (c : Cpu) (m : Mem) (h0 : m 0xFF0F = 0) :
    Cpu.service_interrupts c m = (c, m) := by
  unfold Cpu.service_interrupts
  rw [handle_interrupt_none_of_if_zero _ _ _ _ h0,
      handle_interrupt_none_of_if_zero _ _ _ _ h0,
      handle_interrupt_none_of_if_zero _ _ _ _ h0,
      handle_interrupt_none_of_if_zero _ _ _ _ h0,
      handle_interrupt_none_of_if_zero _ _ _ _ h0]

/-- C4: when the CPU is halted with the IF byte clear, `Cpu::step`
consumes 4 T-cycles, fetches nothing (PC and memory unchanged) and stays
halted; as soon as any IF bit is set the halted flag is cleared — with
the cycle cost still 4 — and in particular with IME off nothing else
changes (PC and memory are untouched). -/
theorem cpu_step_halted_behavior (cpu : Cpu) (m : Mem) (hh : cpu.halted = true) :
    (m 0xFF0F = 0 →
      ∃ c', Cpu.step cpu m = some (c', m, 4) ∧ c'.pc = cpu.pc ∧ c'.halted = true) ∧
    (m 0xFF0F ≠ 0 →
      ∃ c' m', Cpu.step cpu m = some (c', m', 4) ∧ c'.halted = false) ∧
    (m 0xFF0F ≠ 0 → cpu.master_ie = false →
      ∃ c', Cpu.step cpu m = some (c', m, 4) ∧ c'.halted = false ∧ c'.pc = cpu.pc) := by
  refine ⟨?_, ?_, ?_⟩
  · intro h0
    rw [cpu_step_halted_eq cpu m hh]
    simp only [h0, ne_eq, not_true_eq_false, if_false,
      service_interrupts_of_if_zero _ _ h0, ite_self]
    by_cases hie : cpu.master_ie = true <;>
      by_cases hen : cpu.enabling_ie = true <;>
      simp only [hie, hen, if_true, if_false] <;>
      exact ⟨_, rfl, rfl, hh⟩
  · intro h0
    rw [cpu_step_halted_eq cpu m hh]
    simp only [h0, ne_eq, not_false_eq_true, if_true]
    split <;> split <;>
      first
        | exact ⟨_, _, rfl, service_interrupts_halted_false _ m rfl⟩
        | exact ⟨_, _, rfl, rfl⟩
  · intro h0 hime
    rw [cpu_step_halted_eq cpu m hh]
    simp only [h0, ne_eq, not_false_eq_true, if_true, hime, Bool.false_eq_true,
      if_false]
    by_cases hen : cpu.enabling_ie = true <;>
      simp only [hen, if_true, if_false] <;>
      exact ⟨_, rfl, rfl, rfl⟩

/-- C4 witness: the theorem applied to a halted reset CPU, once with the
all-zero memory (IF = 0, stays halted) and once with IF = 0x04 and IME
off (halt exits, PC unchanged). -/
theorem cpu_step_halted_behavior_witness :
    (∃ c', Cpu.step { Cpu.new with halted := true } (fun _ => 0) =
        some (c', fun _ => 0, 4) ∧
      c'.pc = ({ Cpu.new with halted := true } : Cpu).pc ∧ c'.halted = true) ∧
    (∃ c', Cpu.step { Cpu.new with halted := true, master_ie := false }
        (fun i => if i = 0xFF0F then 4 else 0) =
          some (c', fun i => if i = 0xFF0F then 4 else 0, 4) ∧
      c'.halted = false ∧
      c'.pc = ({ Cpu.new with halted := true, master_ie := false } : Cpu).pc) :=
  ⟨(cpu_step_halted_behavior { Cpu.new with halted := true } (fun _ => 0) rfl).1 rfl,
   (cpu_step_halted_behavior { Cpu.new with halted := true, master_ie := false }
      (fun i => if i = 0xFF0F then 4 else 0) rfl).2.2 (by decide) rfl⟩

/-! ### C9 -/

theorem shiftRight8_eq_div (x : Nat) : x >>> 8 = x / 256 := by
  rw [Nat.shiftRight_eq_div_pow]

/-- After `Cpu::push` of a 16-bit value, the high byte sits at SP−1, the
low byte at SP−2, and `Cpu::pop` returns the value and restores SP. -/
theorem push_pop_value (c : Cpu) (m : Mem) (v : Nat) (hsp : c.sp < 65536)
    (hv : v < 65536) :
    (c.push m v).2 ((c.sp + 65535) % 65536) = v / 256 ∧
    (c.push m v).2 ((c.sp + 65534) % 65536) = v % 256 ∧
    ((c.push m v).1.pop (c.push m v).2).2 = v ∧
    ((c.push m v).1.pop (c.push m v).2).1.sp = c.sp := by
  have h21 : ((c.sp + 65535) % 65536 + 65535) % 65536 = (c.sp + 65534) % 65536 := by
    omega
  have h12 : ((c.sp + 65534) % 65536 + 1) % 65536 = (c.sp + 65535) % 65536 := by
    omega
  have hne : (c.sp + 65535) % 65536 ≠ (c.sp + 65534) % 65536 := by omega
  have hne' : (c.sp + 65534) % 65536 ≠ (c.sp + 65535) % 65536 := by omega
  unfold Cpu.push Cpu.pop Mem.write
  simp only [h21, h12, shiftRight8_eq_div]
  refine ⟨?_, ?_, ?_, ?_⟩ <;> simp [hne, hne'] <;> omega

theorem set_af_af (c : Cpu) (v : Nat) (hv : v < 65536) : (c.set_af v).af = v := by
  unfold Cpu.set_af Cpu.af
  simp only [shiftRight8_eq_div]
  omega

/-- C9: for each register pair, executing PUSH rr (opcode 0xC5/0xD5/0xE5/
0xF5) stores the pair's high byte at SP−1 and low byte at SP−2 and costs
16 cycles; the following POP rr (0xC1/0xD1/0xE1/0xF1, 12 cycles) restores
the pair and SP.  For AF, the restored AF equals the pushed AF with its
low four bits cleared (`rr & 0xFFF0` in POP AF). -/
theorem push_pop_roundtrip (cpu : Cpu) (m : Mem)
    (ha : cpu.a < 256) (hf : cpu.f < 256) (hb : cpu.b < 256) (hc : cpu.c < 256)
    (hd : cpu.d < 256) (he : cpu.e < 256) (hh : cpu.h < 256) (hl : cpu.l < 256)
    (hsp : cpu.sp < 65536) :
    (∃ c1 m1, Cpu.decode_execute cpu m 0xC5 = some (c1, m1, 16) ∧
      m1 ((cpu.sp + 65535) % 65536) = cpu.b ∧
      m1 ((cpu.sp + 65534) % 65536) = cpu.c ∧
      ∃ c2 m2, Cpu.decode_execute c1 m1 0xC1 = some (c2, m2, 12) ∧
        c2.b = cpu.b ∧ c2.c = cpu.c ∧ c2.sp = cpu.sp ∧ m2 = m1) ∧
    (∃ c1 m1, Cpu.decode_execute cpu m 0xD5 = some (c1, m1, 16) ∧
      m1 ((cpu.sp + 65535) % 65536) = cpu.d ∧
      m1 ((cpu.sp + 65534) % 65536) = cpu.e ∧
      ∃ c2 m2, Cpu.decode_execute c1 m1 0xD1 = some (c2, m2, 12) ∧
        c2.d = cpu.d ∧ c2.e = cpu.e ∧ c2.sp = cpu.sp ∧ m2 = m1) ∧
    (∃ c1 m1, Cpu.decode_execute cpu m 0xE5 = some (c1, m1, 16) ∧
      m1 ((cpu.sp + 65535) % 65536) = cpu.h ∧
      m1 ((cpu.sp + 65534) % 65536) = cpu.l ∧
      ∃ c2 m2, Cpu.decode_execute c1 m1 0xE1 = some (c2, m2, 12) ∧
        c2.h = cpu.h ∧ c2.l = cpu.l ∧ c2.sp = cpu.sp ∧ m2 = m1) ∧
    (∃ c1 m1, Cpu.decode_execute cpu m 0xF5 = some (c1, m1, 16) ∧
      m1 ((cpu.sp + 65535) % 65536) = cpu.a ∧
      m1 ((cpu.sp + 65534) % 65536) = cpu.f ∧
      ∃ c2 m2, Cpu.decode_execute c1 m1 0xF1 = some (c2, m2, 12) ∧
        c2.af = cpu.af &&& 0xFFF0 ∧ c2.sp = cpu.sp ∧ m2 = m1) := by
  refine ⟨?_, ?_, ?_, ?_⟩
  · obtain ⟨h1, h2, h3, h4⟩ :=
      push_pop_value cpu m cpu.bc hsp (by unfold Cpu.bc; omega)
    refine ⟨_, _, rfl, ?_, ?_, _, _, rfl, ?_, ?_, ?_, rfl⟩
    · rw [h1]; unfold Cpu.bc; omega
    · rw [h2]; unfold Cpu.bc; omega
    · show ((((cpu.push m cpu.bc).1.pop (cpu.push m cpu.bc).2).1.set_bc
        (((cpu.push m cpu.bc).1.pop (cpu.push m cpu.bc).2).2)).b) = cpu.b
      unfold Cpu.set_bc
      simp only [shiftRight8_eq_div, h3]
      unfold Cpu.bc
      omega
    · show ((((cpu.push m cpu.bc).1.pop (cpu.push m cpu.bc).2).1.set_bc
        (((cpu.push m cpu.bc).1.pop (cpu.push m cpu.bc).2).2)).c) = cpu.c
      unfold Cpu.set_bc
      simp only [h3]
      unfold Cpu.bc
      omega
    · show ((((cpu.push m cpu.bc).1.pop (cpu.push m cpu.bc).2).1.set_bc
        (((cpu.push m cpu.bc).1.pop (cpu.push m cpu.bc).2).2)).sp) = cpu.sp
      unfold Cpu.set_bc
      exact h4
  · obtain ⟨h1, h2, h3, h4⟩ :=
      push_pop_value cpu m cpu.de hsp (by unfold Cpu.de; omega)
    refine ⟨_, _, rfl, ?_, ?_, _, _, rfl, ?_, ?_, ?_, rfl⟩
    · rw [h1]; unfold Cpu.de; omega
    · rw [h2]; unfold Cpu.de; omega
    · show ((((cpu.push m cpu.de).1.pop (cpu.push m cpu.de).2).1.set_de
        (((cpu.push m cpu.de).1.pop (cpu.push m cpu.de).2).2)).d) = cpu.d
      unfold Cpu.set_de
      simp only [shiftRight8_eq_div, h3]
      unfold Cpu.de
      omega
    · show ((((cpu.push m cpu.de).1.pop (cpu.push m cpu.de).2).1.set_de
        (((cpu.push m cpu.de).1.pop (cpu.push m cpu.de).2).2)).e) = cpu.e
      unfold Cpu.set_de
      simp only [h3]
      unfold Cpu.de
      omega
    · show ((((cpu.push m cpu.de).1.pop (cpu.push m cpu.de).2).1.set_de
        (((cpu.push m cpu.de).1.pop (cpu.push m cpu.de).2).2)).sp) = cpu.sp
      unfold Cpu.set_de
      exact h4
  · obtain ⟨h1, h2, h3, h4⟩ :=
      push_pop_value cpu m cpu.hl hsp (by unfold Cpu.hl; omega)
    refine ⟨_, _, rfl, ?_, ?_, _, _, rfl, ?_, ?_, ?_, rfl⟩
    · rw [h1]; unfold Cpu.hl; omega
    · rw [h2]; unfold Cpu.hl; omega
    · show ((((cpu.push m cpu.hl).1.pop (cpu.push m cpu.hl).2).1.set_hl
        (((cpu.push m cpu.hl).1.pop (cpu.push m cpu.hl).2).2)).h) = cpu.h
      unfold Cpu.set_hl
      simp only [shiftRight8_eq_div, h3]
      unfold Cpu.hl
      omega
    · show ((((cpu.push m cpu.hl).1.pop (cpu.push m cpu.hl).2).1.set_hl
        (((cpu.push m cpu.hl).1.pop (cpu.push m cpu.hl).2).2)).l) = cpu.l
      unfold Cpu.set_hl
      simp only [h3]
      unfold Cpu.hl
      omega
    · show ((((cpu.push m cpu.hl).1.pop (cpu.push m cpu.hl).2).1.set_hl
        (((cpu.push m cpu.hl).1.pop (cpu.push m cpu.hl).2).2)).sp) = cpu.sp
      unfold Cpu.set_hl
      exact h4
  · obtain ⟨h1, h2, h3, h4⟩ :=
      push_pop_value cpu m cpu.af hsp (by unfold Cpu.af; omega)
    refine ⟨_, _, rfl, ?_, ?_, _, _, rfl, ?_, ?_, rfl⟩
    · rw [h1]; unfold Cpu.af; omega
    · rw [h2]; unfold Cpu.af; omega
    · show ((((cpu.push m cpu.af).1.pop (cpu.push m cpu.af).2).1.set_af
        ((((cpu.push m cpu.af).1.pop (cpu.push m cpu.af).2).2) &&& 0xFFF0)).af)
          = cpu.af &&& 0xFFF0
      rw [set_af_af _ _ (Nat.lt_of_le_of_lt (Nat.and_le_right) (by norm_num)), h3]
    · show ((((cpu.push m cpu.af).1.pop (cpu.push m cpu.af).2).1.set_af
        ((((cpu.push m cpu.af).1.pop (cpu.push m cpu.af).2).2) &&& 0xFFF0)).sp)
          = cpu.sp
      unfold Cpu.set_af
      exact h4

/-- C9 witness: the round trip applied to the reset CPU over the all-zero
memory (BC block extracted). -/
theorem push_pop_roundtrip_witness :
    ∃ c1 m1, Cpu.decode_execute Cpu.new (fun _ => 0) 0xC5 = some (c1, m1, 16) ∧
      m1 ((Cpu.new.sp + 65535) % 65536) = Cpu.new.b ∧
      m1 ((Cpu.new.sp + 65534) % 65536) = Cpu.new.c ∧
      ∃ c2 m2, Cpu.decode_execute c1 m1 0xC1 = some (c2, m2, 12) ∧
        c2.b = Cpu.new.b ∧ c2.c = Cpu.new.c ∧ c2.sp = Cpu.new.sp ∧ m2 = m1 :=
  (push_pop_roundtrip Cpu.new (fun _ => 0) (by decide) (by decide) (by decide)
    (by decide) (by decide) (by decide) (by decide) (by decide) (by decide)).1

/-! ## system.rs — the `System::step` wiring (C1)

`System::step` is pure wiring: it composes the component step functions
the other sections embed.  To state claims about the wiring itself the
component states and step functions are type parameters here; the bus
fields the wiring never touches individually (joypad, rom, wram, hram)
are bundled as `rest`.  `Bus::dma_tick` mutates only the `ppu` field of
the bus (through `Ppu::dma_write`, reading the rest of the bus
immutably), so its parameter returns the new PPU state. -/

/-- The `Bus` aggregate, component states abstracted. -/
structure BusSt (PpuT TimerT SerialT ApuT ItT RestT : Type) where
  ppu : PpuT
  timer : TimerT
  serial : SerialT
  apu : ApuT
  it : ItT
  rest : RestT
  deriving DecidableEq

/-- The `System` aggregate: bus, cpu, and the two host sinks it owns. -/
structure SystemSt (CpuT ScreenT OutT PpuT TimerT SerialT ApuT ItT RestT : Type) where
  bus : BusSt PpuT TimerT SerialT ApuT ItT RestT
  cpu : CpuT
  screen : ScreenT
  serial_output : OutT
  deriving DecidableEq

/-- `for _ in 0..n { a = f(a) }`. -/
def loopN {α : Type*} (f : α → α) : Nat → α → α
  | 0, a => a
  | n + 1, a => loopN f n (f a)

variable {CpuT ScreenT OutT PpuT TimerT SerialT ApuT ItT RestT : Type}

/-- `System::step` (system.rs lines 61..74): one CPU instruction
(obtaining its tick count and possibly mutating the whole bus), then for
each of the `ticks` T-cycles one PPU step (feeding the screen and the
interrupt handler) followed by one timer step, then one serial step
(feeding the serial sink), then `Bus::dma_tick`.  No APU step occurs
anywhere in the source of `System::step` (`Apu::step` is never called in
the crate). -/
def System.step
    (cpu_step : CpuT → BusSt PpuT TimerT SerialT ApuT ItT RestT →
      CpuT × BusSt PpuT TimerT SerialT ApuT ItT RestT × Nat)
    (ppu_step : PpuT → ScreenT → ItT → PpuT × ScreenT × ItT)
    (timer_step : TimerT → ItT → TimerT × ItT)
    (serial_step : SerialT → OutT → ItT → SerialT × OutT × ItT)
    (dma_tick : BusSt PpuT TimerT SerialT ApuT ItT RestT → PpuT)
    (s : SystemSt CpuT ScreenT OutT PpuT TimerT SerialT ApuT ItT RestT) :
    SystemSt CpuT ScreenT OutT PpuT TimerT SerialT ApuT ItT RestT × Nat :=
  let r := cpu_step s.cpu s.bus
  let body : BusSt PpuT TimerT SerialT ApuT ItT RestT × ScreenT →
      BusSt PpuT TimerT SerialT ApuT ItT RestT × ScreenT := fun bs =>
    let pr := ppu_step bs.1.ppu bs.2 bs.1.it
    let tr := timer_step bs.1.timer pr.2.2
    ({ bs.1 with ppu := pr.1, timer := tr.1, it := tr.2 }, pr.2.1)
  let bs := loopN body r.2.2 (r.2.1, s.screen)
  let sr := serial_step bs.1.serial s.serial_output bs.1.it
  let bus3 := { bs.1 with serial := sr.1, it := sr.2.2 }
  ({ bus := { bus3 with ppu := dma_tick bus3 }, cpu := r.1, screen := bs.2,
     serial_output := sr.2.1 }, r.2.2)

/-- Modelled from the spec: the per-tick data flow the claim describes —
`for i in 0..N { APU.tick; PPU.tick(pixel-sink); Timer.tick }` — that is,
the same wiring as `System.step` but with one APU advance in every
T-cycle of the loop.  (`apu_step` abstracts the spec's `APU.tick`.) -/
def System.step_spec
    (apu_step : ApuT → ApuT)
    (cpu_step : CpuT → BusSt PpuT TimerT SerialT ApuT ItT RestT →
      CpuT × BusSt PpuT TimerT SerialT ApuT ItT RestT × Nat)
    (ppu_step : PpuT → ScreenT → ItT → PpuT × ScreenT × ItT)
    (timer_step : TimerT → ItT → TimerT × ItT)
    (serial_step : SerialT → OutT → ItT → SerialT × OutT × ItT)
    (dma_tick : BusSt PpuT TimerT SerialT ApuT ItT RestT → PpuT)
    (s : SystemSt CpuT ScreenT OutT PpuT TimerT SerialT ApuT ItT RestT) :
    SystemSt CpuT ScreenT OutT PpuT TimerT SerialT ApuT ItT RestT × Nat :=
  let r := cpu_step s.cpu s.bus
  let body : BusSt PpuT TimerT SerialT ApuT ItT RestT × ScreenT →
      BusSt PpuT TimerT SerialT ApuT ItT RestT × ScreenT := fun bs =>
    let a := apu_step bs.1.apu
    let pr := ppu_step bs.1.ppu bs.2 bs.1.it
    let tr := timer_step bs.1.timer pr.2.2
    ({ bs.1 with apu := a, ppu := pr.1, timer := tr.1, it := tr.2 }, pr.2.1)
  let bs := loopN body r.2.2 (r.2.1, s.screen)
  let sr := serial_step bs.1.serial s.serial_output bs.1.it
  let bus3 := { bs.1 with serial := sr.1, it := sr.2.2 }
  ({ bus := { bus3 with ppu := dma_tick bus3 }, cpu := r.1, screen := bs.2,
     serial_output := sr.2.1 }, r.2.2)

/-! ### C1 -/

/-- C1 counterexample: with every component state a counter, an
instruction cost of 4 and the APU tick an increment, the code's wiring
leaves the APU where it was (counter 0) while the claimed data flow
advances it once per T-cycle (counter 4); the two step functions produce
different system states. -/
theorem system_step_omits_apu_tick :
    (System.step (fun (c : Nat) b => (c, b, 4))
        (fun (p : Nat) (sc : Nat) (it : Nat) => (p, sc, it))
        (fun (t : Nat) it => (t, it))
        (fun (sr : Nat) (o : Nat) it => (sr, o, it))
        (fun b => b.ppu)
        ⟨⟨0, 0, 0, 0, 0, (0 : Nat)⟩, (0 : Nat), (0 : Nat), (0 : Nat)⟩).1.bus.apu
      = 0 ∧
    (System.step_spec Nat.succ (fun (c : Nat) b => (c, b, 4))
        (fun (p : Nat) (sc : Nat) (it : Nat) => (p, sc, it))
        (fun (t : Nat) it => (t, it))
        (fun (sr : Nat) (o : Nat) it => (sr, o, it))
        (fun b => b.ppu)
        ⟨⟨0, 0, 0, 0, 0, (0 : Nat)⟩, (0 : Nat), (0 : Nat), (0 : Nat)⟩).1.bus.apu
      = 4 ∧
    System.step (fun (c : Nat) b => (c, b, 4))
        (fun (p : Nat) (sc : Nat) (it : Nat) => (p, sc, it))
        (fun (t : Nat) it => (t, it))
        (fun (sr : Nat) (o : Nat) it => (sr, o, it))
        (fun b => b.ppu)
        ⟨⟨0, 0, 0, 0, 0, (0 : Nat)⟩, (0 : Nat), (0 : Nat), (0 : Nat)⟩ ≠
      System.step_spec Nat.succ (fun (c : Nat) b => (c, b, 4))
        (fun (p : Nat) (sc : Nat) (it : Nat) => (p, sc, it))
        (fun (t : Nat) it => (t, it))
        (fun (sr : Nat) (o : Nat) it => (sr, o, it))
        (fun b => b.ppu)
        ⟨⟨0, 0, 0, 0, 0, (0 : Nat)⟩, (0 : Nat), (0 : Nat), (0 : Nat)⟩ := by
  refine ⟨by decide, by decide, by decide⟩

theorem loopN_eq_iterate {α : Type*} (f : α → α) :
    ∀ (n : Nat) (a : α), loopN f n a = f^[n] a := by
  intro n
  induction n with
  | zero => intro a; rfl
  | succ k ih =>
    intro a
    rw [loopN, ih]
    exact (Function.iterate_succ_apply f k a).symm

theorem loopN_preserves_apu
    (ppu_step : PpuT → ScreenT → ItT → PpuT × ScreenT × ItT)
    (timer_step : TimerT → ItT → TimerT × ItT) :
    ∀ (n : Nat) (a : BusSt PpuT TimerT SerialT ApuT ItT RestT × ScreenT),
      (loopN (fun bs =>
        let pr := ppu_step bs.1.ppu bs.2 bs.1.it
        let tr := timer_step bs.1.timer pr.2.2
        ({ bs.1 with ppu := pr.1, timer := tr.1, it := tr.2 }, pr.2.1)) n a).1.apu
        = a.1.apu := by
  intro n
  induction n with
  | zero => intro a; rfl
  | succ k ih =>
    intro a
    rw [loopN, ih]

/-- C1 (amended): `System::step` first runs exactly one CPU instruction
obtaining its T-cycle cost N, then iterates the PPU-step-then-timer-step
body once per T-cycle, then performs one serial tick, and finally one
`Bus::dma_tick`; the APU is never advanced — after the CPU instruction
the APU state is carried through unchanged — and the final `dma_tick`
writes at most one OAM byte (at most one OAM address changes). -/
theorem system_step_pipeline
    (cpu_step : CpuT → BusSt PpuT TimerT SerialT ApuT ItT RestT →
      CpuT × BusSt PpuT TimerT SerialT ApuT ItT RestT × Nat)
    (ppu_step : PpuT → ScreenT → ItT → PpuT × ScreenT × ItT)
    (timer_step : TimerT → ItT → TimerT × ItT)
    (serial_step : SerialT → OutT → ItT → SerialT × OutT × ItT)
    (dma_tick : BusSt PpuT TimerT SerialT ApuT ItT RestT → PpuT)
    (s : SystemSt CpuT ScreenT OutT PpuT TimerT SerialT ApuT ItT RestT) :
    (System.step cpu_step ppu_step timer_step serial_step dma_tick s =
      (let r := cpu_step s.cpu s.bus
       let bs := (fun bs :
           BusSt PpuT TimerT SerialT ApuT ItT RestT × ScreenT =>
         let pr := ppu_step bs.1.ppu bs.2 bs.1.it
         let tr := timer_step bs.1.timer pr.2.2
         ({ bs.1 with ppu := pr.1, timer := tr.1, it := tr.2 },
          pr.2.1))^[r.2.2] (r.2.1, s.screen)
       let sr := serial_step bs.1.serial s.serial_output bs.1.it
       let bus3 := { bs.1 with serial := sr.1, it := sr.2.2 }
       ({ bus := { bus3 with ppu := dma_tick bus3 }, cpu := r.1,
          screen := bs.2, serial_output := sr.2.1 }, r.2.2))) ∧
    (System.step cpu_step ppu_step timer_step serial_step dma_tick s).1.bus.apu
      = (cpu_step s.cpu s.bus).2.1.apu ∧
    (System.step cpu_step ppu_step timer_step serial_step dma_tick s).2
      = (cpu_step s.cpu s.bus).2.2 ∧
    (∀ (read : Nat → Nat) (p : Ppu) (i j : Nat), i ≠ j →
      (Bus.dma_tick read p).oam i ≠ p.oam i →
      (Bus.dma_tick read p).oam j = p.oam j) := by
  refine ⟨?_, ?_, rfl, ?_⟩
  · unfold System.step
    simp only [loopN_eq_iterate]
  · unfold System.step
    simp only [loopN_preserves_apu]
  · intro read p i j hij hi
    unfold Bus.dma_tick Ppu.dma_write at hi ⊢
    by_cases hact : p.dma_active = true
    · simp only [hact, if_true] at hi ⊢
      by_cases h160 : 160 ≤ p.dma_idx + 1 <;>
        simp only [h160, if_true, if_false] at hi ⊢ <;>
        · by_cases hip : i = p.dma_idx
          · have hjp : ¬ j = p.dma_idx := by rw [← hip]; exact fun hc => hij hc.symm
            simp [hjp]
          · simp [hip] at hi
    · simp only [hact, if_false] at hi
      exact absurd rfl hi

/-- C1 witness: the pipeline shape applied at the counter instantiation
of the counterexample, and the DMA conjunct at a concrete armed PPU. -/
theorem system_step_pipeline_witness :
    (System.step (fun (c : Nat) b => (c, b, 4))
        (fun (p : Nat) (sc : Nat) (it : Nat) => (p, sc, it))
        (fun (t : Nat) it => (t, it))
        (fun (sr : Nat) (o : Nat) it => (sr, o, it))
        (fun b => b.ppu)
        ⟨⟨0, 0, 0, 0, 0, (0 : Nat)⟩, (0 : Nat), (0 : Nat), (0 : Nat)⟩).1.bus.apu
      = ((fun (c : Nat) b => (c, b, 4)) (0 : Nat)
          (⟨0, 0, 0, 0, 0, (0 : Nat)⟩ :
            BusSt Nat Nat Nat Nat Nat Nat)).2.1.apu ∧
    (Bus.dma_tick (fun _ => 0x55) (Ppu.dma_start Ppu.new 0x12)).oam 1
      = (Ppu.dma_start Ppu.new 0x12).oam 1 :=
  ⟨(system_step_pipeline (fun (c : Nat) b => (c, b, 4))
      (fun (p : Nat) (sc : Nat) (it : Nat) => (p, sc, it))
      (fun (t : Nat) it => (t, it))
      (fun (sr : Nat) (o : Nat) it => (sr, o, it))
      (fun b => b.ppu)
      ⟨⟨0, 0, 0, 0, 0, (0 : Nat)⟩, (0 : Nat), (0 : Nat), (0 : Nat)⟩).2.1,
   (system_step_pipeline (fun (c : Nat) b => (c, b, 4))
      (fun (p : Nat) (sc : Nat) (it : Nat) => (p, sc, it))
      (fun (t : Nat) it => (t, it))
      (fun (sr : Nat) (o : Nat) it => (sr, o, it))
      (fun b => b.ppu)
      ⟨⟨0, 0, 0, 0, 0, (0 : Nat)⟩, (0 : Nat), (0 : Nat), (0 : Nat)⟩).2.2.2
     (fun _ => 0x55) (Ppu.dma_start Ppu.new 0x12) 0 1 (by decide) (by decide)⟩
